import Mathlib

/-!
Shallow embedding of the praise-backend badge engine
(src/services/badgeService.js, src/models/badge.model.js,
src/models/user-repository.model.js, the webhook gateway controller and
the repository import service), together with proofs of the spec claims.

Mongo documents are embedded as Lean structures, collections as lists,
ObjectIds as naturals, and each service function as a pure Lean function
on that state.  Upstream I/O (the GitHub API) is passed in as an explicit
parameter; fallible calls return Except.
-/

namespace Praise

/-- Badge criteria types (badge.model.js, badgeSchema.criteriaType enum):
prs, commits, issues, reviews, stars, forks. -/
inductive CriteriaType
  | prs
  | commits
  | issues
  | reviews
  | stars
  | forks
deriving DecidableEq, Repr

/-- A Badge document (badge.model.js badgeSchema): scoped to one repository,
with a criteria type, a positive criteria threshold, active and isDefault
flags, and a creator reference. -/
structure BadgeDoc where
  id : Nat
  repository : Nat
  name : String
  criteriaType : CriteriaType
  criteriaValue : Nat
  active : Bool
  isDefault : Bool
  createdBy : Nat
deriving DecidableEq, Repr

/-- A contributor statistics record as produced by
BadgeService.getContributorStats (badgeService.js): per-user aggregate of
pull-request and commit activity for one repository.  Timestamps are
modelled as naturals. -/
structure ContributorStats where
  userId : Nat
  userEmail : String
  githubUsername : String
  totalPRs : Nat
  mergedPRs : Nat
  totalCommits : Nat
  totalAdditions : Nat
  totalDeletions : Nat
  totalFilesChanged : Nat
  firstContribution : Option Nat
  lastContribution : Option Nat
  totalLinesChanged : Nat
deriving DecidableEq, Repr

/-- BadgeService.checkBadgeEligibility (badgeService.js lines 565-594):
prs compares mergedPRs to the threshold, commits compares totalCommits,
every other criteria type returns false. -/
def checkBadgeEligibility (contributor : ContributorStats) (badge : BadgeDoc) : Bool :=
  match badge.criteriaType with
  | .prs => badge.criteriaValue ≤ contributor.mergedPRs
  | .commits => badge.criteriaValue ≤ contributor.totalCommits
  | .issues => false
  | .reviews => false
  | .stars => false
  | .forks => false

/-- BadgeService.getActualValue (badgeService.js lines 602-611): the metric
that was compared, or 0 for unsupported criteria types. -/
def getActualValue (contributor : ContributorStats) (badge : BadgeDoc) : Nat :=
  match badge.criteriaType with
  | .prs => contributor.mergedPRs
  | .commits => contributor.totalCommits
  | _ => 0

/-- The awardedBy enum of userBadgeSchema (badge.model.js lines 284-288):
values system, manual, webhook, with default "system". -/
inductive AwardedBy
  | system
  | manual
  | webhook
deriving DecidableEq, Repr

/-- A UserBadge (Award) row, userBadgeSchema (badge.model.js lines 259-311).
The awardedBy field carries the schema default unless a caller sets it;
triggeringEvent models metadata.triggeringEvent. -/
structure UserBadgeRow where
  user : Nat
  badge : Nat
  repository : Nat
  actualValue : Nat
  awardedBy : AwardedBy
  triggeringEvent : Option String
deriving DecidableEq, Repr

/-- The Award Ledger: the persisted UserBadge collection. -/
abbrev Ledger := List UserBadgeRow

/-- The (user, badge) pair predicate used by the unique index and by the
findOne calls in awardBadge and the award loops. -/
def samePair (userId badgeId : Nat) (r : UserBadgeRow) : Bool :=
  r.user == userId && r.badge == badgeId

/-- The storage-level insert guarded by the unique compound index
userBadgeSchema.index on user and badge (badge.model.js line 328): the
insert succeeds only when no row with the same (user, badge) pair exists;
otherwise Mongo raises duplicate-key error 11000, modelled as the false
flag, and the collection is unchanged.  This single conditional insert is
the atomic arbiter of concurrent award attempts. -/
def insertUnique (L : Ledger) (row : UserBadgeRow) : Ledger × Bool :=
  if L.any (samePair row.user row.badge) then (L, false) else (row :: L, true)

/-- The value returned by UserBadge.awardBadge: a success flag, a message
and (when available) the award row.  Both duplicate paths return a value
(not an exception): the findOne hit returns the existing row, and the
duplicate-key error 11000 raised by the unique index is caught and
converted to this result. -/
structure AwardOutcome where
  success : Bool
  message : String
  award : Option UserBadgeRow
deriving DecidableEq, Repr

/-- UserBadge.awardBadge (badge.model.js lines 359-414), with the findOne
pre-check reading a possibly stale snapshot Lfind of the collection while
the insert itself applies to the current collection L: this models a
concurrent race where another invocation commits between the findOne and
the save.  The awardedBy field is not passed by the code, so the created
row carries the schema default AwardedBy.system. -/
def awardBadgeAt (Lfind L : Ledger) (userId badgeId repositoryId actualValue : Nat)
    (triggeringEvent : Option String) : Ledger × AwardOutcome :=
  match Lfind.find? (samePair userId badgeId) with
  | some existing => (L, ⟨false, "Badge already awarded to user", some existing⟩)
  | none =>
    match insertUnique L
        ⟨userId, badgeId, repositoryId, actualValue, AwardedBy.system, triggeringEvent⟩ with
    | (L2, true) =>
      (L2, ⟨true, "Badge awarded successfully",
        some ⟨userId, badgeId, repositoryId, actualValue, AwardedBy.system, triggeringEvent⟩⟩)
    | (L2, false) => (L2, ⟨false, "Badge already awarded to user", none⟩)

/-- UserBadge.awardBadge in the sequential (race-free) case: the findOne
and the insert see the same collection state. -/
def awardBadge (L : Ledger) (userId badgeId repositoryId actualValue : Nat)
    (triggeringEvent : Option String) : Ledger × AwardOutcome :=
  awardBadgeAt L L userId badgeId repositoryId actualValue triggeringEvent

/-- The central invariant of the Award Ledger: at most one row per
(user, badge) pair. -/
def AtMostOnePerPair (L : Ledger) : Prop :=
  ∀ userId badgeId : Nat, L.countP (samePair userId badgeId) ≤ 1

/-! ## The Badge Awarding Engine -/

/-- Result accumulator of BadgeService.awardBadgesForRepo
(badgeService.js lines 185-193).  newAwards records
(userId, userEmail, badgeName, actualValue); errors collects per-item
failures (the model has no transient storage failures, so no entry is
ever pushed: in particular duplicate awards are not errors). -/
structure BatchResults where
  success : Bool
  badgesChecked : Nat
  contributorsChecked : Nat
  awardsGiven : Nat
  newAwards : List (Nat × String × String × Nat)
  errors : List String
deriving DecidableEq, Repr

/-- One iteration of the inner badge loop of awardBadgesForRepo
(badgeService.js lines 197-248): skip when already awarded (unless
forceRecheck), evaluate eligibility, and award with actualValue from
getActualValue and triggeringEvent "batch_award". -/
def batchStep (forceRecheck : Bool) (repoId : Nat) (c : ContributorStats)
    (st : Ledger × BatchResults) (b : BadgeDoc) : Ledger × BatchResults :=
  let L := st.1
  let res := st.2
  if !forceRecheck && L.any (samePair c.userId b.id) then (L, res)
  else if checkBadgeEligibility c b then
    match awardBadge L c.userId b.id repoId (getActualValue c b) (some "batch_award") with
    | (L2, out) =>
      if out.success then
        (L2, { res with
                awardsGiven := res.awardsGiven + 1,
                newAwards := res.newAwards ++
                  [(c.userId, c.userEmail, b.name, getActualValue c b)] })
      else (L2, res)
  else (L, res)

/-- BadgeService.awardBadgesForRepo (badgeService.js lines 153-259), the
batch path: activeBadges stands for the result of the Badge.find query on
(repository, active) and contributors for the getContributorStats result.
When no active badge exists the procedure returns early with
awardsGiven = 0. -/
def awardBadgesForRepo (repoId : Nat) (forceRecheck : Bool)
    (activeBadges : List BadgeDoc) (contributors : List ContributorStats)
    (L : Ledger) : Ledger × BatchResults :=
  if activeBadges.isEmpty then
    (L, ⟨true, 0, 0, 0, [], []⟩)
  else
    contributors.foldl
      (fun st c => activeBadges.foldl (batchStep forceRecheck repoId c) st)
      (L, ⟨true, activeBadges.length, contributors.length, 0, [], []⟩)

/-- Result of BadgeService.awardBadgeForEvent (badgeService.js lines
644-648): success flag, the no-contributions message when it applies,
and the newly created award rows. -/
structure EventResults where
  success : Bool
  message : Option String
  awardsGiven : Nat
  newAwards : List UserBadgeRow
deriving DecidableEq, Repr

/-- One iteration of the badge loop of awardBadgeForEvent
(badgeService.js lines 651-684): skip when a (user, badge) award exists,
evaluate eligibility, and award with the given triggeringEvent. -/
def eventStep (userId repositoryId : Nat) (triggeringEvent : Option String)
    (c : ContributorStats) (st : Ledger × EventResults) (b : BadgeDoc) :
    Ledger × EventResults :=
  let L := st.1
  let res := st.2
  if L.any (samePair userId b.id) then (L, res)
  else if checkBadgeEligibility c b then
    match awardBadge L userId b.id repositoryId (getActualValue c b) triggeringEvent with
    | (L2, out) =>
      if out.success then
        (L2, { res with
                awardsGiven := res.awardsGiven + 1,
                newAwards := res.newAwards ++ out.award.toList })
      else (L2, res)
  else (L, res)

/-- BadgeService.awardBadgeForEvent (badgeService.js lines 618-694), the
single-user real-time path: userStats stands for the getContributorStats
result and badges for the active badges of the repository.  An empty
statistics list returns the no-contributions result without touching the
ledger. -/
def awardBadgeForEvent (userId repositoryId : Nat) (triggeringEvent : Option String)
    (userStats : List ContributorStats) (badges : List BadgeDoc)
    (L : Ledger) : Ledger × EventResults :=
  match userStats with
  | [] => (L, ⟨false, some "No contributions found for user in this repository", 0, []⟩)
  | contributor :: _ =>
    badges.foldl (eventStep userId repositoryId triggeringEvent contributor)
      (L, ⟨true, none, 0, []⟩)

/-- One iteration of the badge loop of the manual check endpoint
(badge.controller.js lines 79-124): skip badges whose id is in the
pre-computed set of already awarded badge ids, evaluate eligibility, and
award with triggeringEvent "manual_check".  newlyAwarded records
(badgeId, badgeName, actualValue). -/
def checkStep (userId repositoryId : Nat) (existingBadgeIds : List Nat)
    (c : ContributorStats) (st : Ledger × List (Nat × String × Nat)) (b : BadgeDoc) :
    Ledger × List (Nat × String × Nat) :=
  let L := st.1
  let acc := st.2
  if existingBadgeIds.contains b.id then (L, acc)
  else if checkBadgeEligibility c b then
    match awardBadge L userId b.id repositoryId (getActualValue c b) (some "manual_check") with
    | (L2, out) =>
      if out.success then (L2, acc ++ [(b.id, b.name, getActualValue c b)])
      else (L2, acc)
  else (L, acc)

/-- The manual check-and-award endpoint, controllers/badge.controller.js
checkAndAwardBadges (lines 15-140): membershipOk stands for the
UserRepository access check, contributorStats for the getContributorStats
result, and badges for the active badges sorted ascending by
criteriaValue (the sort is done by the Badge.find query).  Returns the
possibly extended ledger and the list of newly awarded badges; when the
membership check fails or no contribution exists, the ledger is
unchanged. -/
def checkAndAwardBadges (userId repositoryId : Nat) (membershipOk : Bool)
    (contributorStats : List ContributorStats) (badges : List BadgeDoc)
    (L : Ledger) : Ledger × List (Nat × String × Nat) :=
  if !membershipOk then (L, [])
  else
    match contributorStats with
    | [] => (L, [])
    | contributor :: _ =>
      let existingBadgeIds :=
        (L.filter (fun r => r.user == userId && r.repository == repositoryId)).map
          (fun r => r.badge)
      badges.foldl (checkStep userId repositoryId existingBadgeIds contributor) (L, [])

/-! ## Badge progress -/

/-- One entry of the progress array built by
BadgeService.getUserBadgeProgress (badgeService.js lines 766-784). -/
structure ProgressEntry where
  badge : BadgeDoc
  earned : Bool
  currentValue : Nat
  requiredValue : Nat
  progress : ℚ
deriving DecidableEq, Repr

/-- The value returned by BadgeService.getUserBadgeProgress
(badgeService.js lines 786-791). -/
structure ProgressReport where
  contributor : ContributorStats
  totalBadges : Nat
  earnedBadgesCount : Nat
  progress : List ProgressEntry
deriving DecidableEq, Repr

/-- The fallback contributor object of getUserBadgeProgress
(badgeService.js lines 760-764): totalPRs, mergedPRs and totalCommits are
zero; the remaining fields are absent in the JavaScript object and are
modelled by zero defaults (only mergedPRs and totalCommits are ever read
downstream, by getActualValue). -/
def zeroContributor : ContributorStats :=
  ⟨0, "", "", 0, 0, 0, 0, 0, 0, none, none, 0⟩

/-- BadgeService.getUserBadgeProgress (badgeService.js lines 752-796):
userStats stands for the getContributorStats result, badges for the
active badges of the repository, and the earned badges are the ledger
rows of this (user, repository) pair.  The reported progress of a badge
is min of (currentValue / criteriaValue) * 100 and 100, computed here in
exact rational arithmetic. -/
def getUserBadgeProgress (userId repositoryId : Nat)
    (userStats : List ContributorStats) (badges : List BadgeDoc)
    (L : Ledger) : ProgressReport :=
  let earnedBadges := L.filter (fun r => r.user == userId && r.repository == repositoryId)
  let contributor := userStats.head?.getD zeroContributor
  let entries := badges.map (fun b =>
    let earned := earnedBadges.find? (fun ub => ub.badge == b.id)
    let currentValue := getActualValue contributor b
    ⟨b, earned.isSome, currentValue, b.criteriaValue,
      min ((currentValue : ℚ) / (b.criteriaValue : ℚ) * 100) 100⟩)
  ⟨contributor, badges.length, earnedBadges.length, entries⟩

/-! ## Contributor Statistics Provider (live GitHub fetch) -/

/-- A local user document (user.model.js): GitHub identity and token are
optional, as getContributorStats checks for their absence. -/
structure UserRow where
  id : Nat
  email : String
  githubUsername : Option String
  githubToken : Option String
deriving DecidableEq, Repr

/-- One pull request as returned by the upstream GitHub listing, together
with the outcomes of the two per-PR follow-up fetches that
fetchGitHubPRStats performs for merged PRs: the commits_url fetch
(number of commits) and the pr.url detail fetch (additions, deletions).
A failing follow-up fetch is caught and skipped by the code. -/
structure UpstreamPR where
  authorLogin : String
  state : String
  mergedAt : Option Nat
  createdAt : Nat
  commitsFetch : Except String Nat
  detailFetch : Except String (Nat × Nat)
deriving Repr

/-- The upstream GitHub API as seen by fetchGitHubPRStats: the paginated
pull-request listing (a failure anywhere in the paging loop aborts the
whole computation) and the author-filtered commit listing (a failure
there is caught, leaving the PR-derived commit count in place). -/
structure Upstream where
  pulls : Except String (List UpstreamPR)
  directCommits : Except String Nat
deriving Repr

/-- The statistics object assembled by fetchGitHubPRStats
(badgeService.js lines 398-418). -/
structure GithubStats where
  totalPRs : Nat
  mergedPRs : Nat
  openPRs : Nat
  closedPRs : Nat
  totalCommits : Nat
  totalAdditions : Nat
  totalDeletions : Nat
  totalFilesChanged : Nat
  firstContribution : Option Nat
  lastContribution : Option Nat
  totalLinesChanged : Nat
deriving DecidableEq, Repr

/-- Minimum of a list of timestamps (the Math.min over created_at). -/
def listMin? (xs : List Nat) : Option Nat :=
  xs.foldl (fun acc x =>
    match acc with
    | none => some x
    | some m => some (Nat.min m x)) none

/-- Maximum of a list of timestamps (the Math.max over created_at). -/
def listMax? (xs : List Nat) : Option Nat :=
  xs.foldl (fun acc x =>
    match acc with
    | none => some x
    | some m => some (Nat.max m x)) none

/-- BadgeService.fetchGitHubPRStats (badgeService.js lines 268-437).
A failure of the pull-request listing propagates (the function rethrows);
per-PR follow-up failures are caught and contribute nothing; the commit
count is the maximum of the PR-derived count and the direct-commit count,
the latter being dropped when its fetch fails. -/
def fetchGitHubPRStats (upstream : Upstream) (githubUsername : String) :
    Except String GithubStats :=
  match upstream.pulls with
  | .error e => .error e
  | .ok prs =>
    let allPRs := prs.filter (fun pr => pr.authorLogin == githubUsername)
    let mergedList := allPRs.filter (fun pr => pr.mergedAt.isSome)
    let prCommits := mergedList.foldl (fun acc pr =>
      match pr.commitsFetch with
      | .ok n => acc + n
      | .error _ => acc) 0
    let totalAdditions := mergedList.foldl (fun acc pr =>
      match pr.commitsFetch, pr.detailFetch with
      | .ok _, .ok d => acc + d.1
      | _, _ => acc) 0
    let totalDeletions := mergedList.foldl (fun acc pr =>
      match pr.commitsFetch, pr.detailFetch with
      | .ok _, .ok d => acc + d.2
      | _, _ => acc) 0
    let totalCommits :=
      match upstream.directCommits with
      | .ok n => Nat.max prCommits n
      | .error _ => prCommits
    .ok
      { totalPRs := allPRs.length
        mergedPRs := mergedList.length
        openPRs := (allPRs.filter (fun pr => pr.state == "open")).length
        closedPRs :=
          (allPRs.filter (fun pr => pr.state == "closed" && pr.mergedAt.isNone)).length
        totalCommits := totalCommits
        totalAdditions := totalAdditions
        totalDeletions := totalDeletions
        totalFilesChanged := 0
        firstContribution := listMin? (allPRs.map (fun pr => pr.createdAt))
        lastContribution := listMax? (allPRs.map (fun pr => pr.createdAt))
        totalLinesChanged := totalAdditions + totalDeletions }

/-- Conversion of the GitHub stats into the contributor record shape
(badgeService.js lines 474-489). -/
def toContributorStats (u : UserRow) (username : String) (s : GithubStats) :
    ContributorStats :=
  ⟨u.id, u.email, username, s.totalPRs, s.mergedPRs, s.totalCommits,
    s.totalAdditions, s.totalDeletions, s.totalFilesChanged,
    s.firstContribution, s.lastContribution, s.totalLinesChanged⟩

/-- BadgeService.getContributorStats, specific-user branch
(badgeService.js lines 445-499 and the catch at 553-556): a missing
repository throws and is caught by the outer catch (logged, empty list);
a missing user or missing GitHub credentials returns the empty list; a
failing upstream fetch is caught by the outer catch, its error is logged
and the empty list is returned, never a partial record.  The second
component is the list of error logs emitted. -/
def getContributorStats (repoExists : Bool) (user? : Option UserRow)
    (upstream : Upstream) : List ContributorStats × List String :=
  if !repoExists then
    ([], ["Error in getContributorStats: Repository not found"])
  else
    match user? with
    | none => ([], ["User not found or missing GitHub credentials"])
    | some u =>
      match u.githubUsername, u.githubToken with
      | some username, some _token =>
        match fetchGitHubPRStats upstream username with
        | .error e => ([], ["Error in getContributorStats: " ++ e])
        | .ok s => ([toContributorStats u username s], [])
      | _, _ => ([], ["User not found or missing GitHub credentials"])

/-- BadgeService.awardBadgeForEvent including its statistics fetch
(badgeService.js lines 618-694): composes getContributorStats with the
award loop, returning the ledger, the result and the logs. -/
def awardBadgeForEventLive (repoExists : Bool) (user? : Option UserRow)
    (upstream : Upstream) (userId repositoryId : Nat)
    (triggeringEvent : Option String) (badges : List BadgeDoc)
    (L : Ledger) : Ledger × EventResults × List String :=
  let fetched := getContributorStats repoExists user? upstream
  let stepped := awardBadgeForEvent userId repositoryId triggeringEvent fetched.1 badges L
  (stepped.1, stepped.2, fetched.2)

/-! ## Repository Import Service -/

/-- An upstream repository snapshot as passed to
BadgeService.importRepositories (the GitHub repository payload plus the
userRole computed by the controller).  Fields the code reads through
JavaScript or-defaults are optional here. -/
structure GithubSnap where
  id : Nat
  name : String
  fullName : String
  ownerLogin : Option String
  userRole : Option String
  description : Option String
  language : Option String
  privateFlag : Bool
  htmlUrl : String
  cloneUrl : String
  defaultBranch : Option String
  stargazersCount : Option Nat
  forksCount : Option Nat
  topics : Option (List String)
deriving DecidableEq, Repr

/-- A Repository document (repository model): identity is the upstream
githubId, which carries a unique index.  The lastSyncAt timestamp is not
modelled (no claim depends on it). -/
structure RepositoryRow where
  id : Nat
  name : String
  fullName : String
  owner : Nat
  description : Option String
  language : Option String
  privateFlag : Bool
  githubId : Nat
  url : String
  cloneUrl : String
  defaultBranch : String
  stargazersCount : Nat
  forksCount : Nat
  topics : List String
  badges : List Nat
  active : Bool
deriving DecidableEq, Repr

/-- Repository.syncData (repository model): overwrite the mutable snapshot
fields; identity fields (githubId, fullName, owner) are untouched. -/
def syncData (r : RepositoryRow) (snap : GithubSnap) : RepositoryRow :=
  { r with
    name := snap.name
    description := snap.description
    language := snap.language
    privateFlag := snap.privateFlag
    stargazersCount := snap.stargazersCount.getD 0
    forksCount := snap.forksCount.getD 0
    topics := snap.topics.getD []
    defaultBranch := snap.defaultBranch.getD "main" }

/-- A UserRepository membership row (user-repository.model.js): the
(user, repository) pair carries a unique index. -/
structure MembershipRow where
  user : Nat
  repository : Nat
  role : String
  active : Bool
  canManageBadges : Bool
  canViewAnalytics : Bool
  canInviteContributors : Bool
deriving DecidableEq, Repr

/-- The permissions applied on save (addUserToRepository together with the
pre-save hook of user-repository.model.js lines 197-208): owner grants
badge management and contributor invitation, any other role revokes
them. -/
def applyRoleHook (m : MembershipRow) : MembershipRow :=
  if m.role == "owner" then
    { m with canManageBadges := true, canInviteContributors := true }
  else
    { m with canManageBadges := false, canInviteContributors := false }

/-- UserRepository.addUserToRepository (user-repository.model.js lines
118-165): upsert of the (user, repository) membership — update role and
reactivate when the row exists, create it otherwise; a duplicate-key race
is resolved by returning the existing row, never by inserting a second
one. -/
def addUserToRepository (ms : List MembershipRow) (userId repositoryId : Nat)
    (role : String) : List MembershipRow :=
  if ms.any (fun m => m.user == userId && m.repository == repositoryId) then
    ms.map (fun m =>
      if m.user == userId && m.repository == repositoryId then
        applyRoleHook { m with role := role, active := true }
      else m)
  else
    ms ++ [applyRoleHook ⟨userId, repositoryId, role, true,
      role == "owner", true, role == "owner"⟩]

/-- The database state seen by the import service. -/
structure ImportDb where
  users : List UserRow
  repositories : List RepositoryRow
  badges : List BadgeDoc
  memberships : List MembershipRow
  nextId : Nat
deriving Repr

/-- The fixed default badge set of Badge.createDefaultBadges
(badge.model.js lines 129-170): name, criteria type, threshold. -/
def defaultBadgeTemplates : List (String × CriteriaType × Nat) :=
  [("First Contributor", CriteriaType.prs, 1),
   ("Active Contributor", CriteriaType.prs, 5),
   ("Super Contributor", CriteriaType.prs, 20),
   ("Commit Champion", CriteriaType.commits, 50)]

/-- Badge.createDefaultBadges (badge.model.js lines 125-191): insertMany
of the default set with ordered false under the unique
(repository, criteriaType, criteriaValue) index; when any insert hits a
duplicate the error 11000 is caught and the caller receives the empty
list (the non-conflicting rows stay inserted, as Mongo leaves them). -/
def createDefaultBadges (db : ImportDb) (repositoryId createdBy : Nat) :
    ImportDb × List BadgeDoc :=
  let folded := defaultBadgeTemplates.foldl
    (fun (acc : ImportDb × List BadgeDoc × Bool) t =>
      let db := acc.1
      let conflictHere := db.badges.any (fun b =>
        b.repository == repositoryId && b.criteriaType == t.2.1 &&
          b.criteriaValue == t.2.2)
      if conflictHere then (db, acc.2.1, true)
      else
        let nb : BadgeDoc := ⟨db.nextId, repositoryId, t.1, t.2.1, t.2.2, true, true, createdBy⟩
        ({ db with badges := db.badges ++ [nb], nextId := db.nextId + 1 },
          acc.2.1 ++ [nb], acc.2.2))
    (db, [], false)
  if folded.2.2 then (folded.1, []) else (folded.1, folded.2.1)

/-- One entry of the imported or updated lists of the import result;
updated entries carry no badgeCount. -/
structure ImportEntry where
  id : Nat
  name : String
  fullName : String
  role : String
  badgeCount : Option Nat
deriving DecidableEq, Repr

/-- The result object of BadgeService.importRepositories
(badgeService.js lines 19-25). -/
structure ImportResults where
  success : Bool
  imported : List ImportEntry
  updated : List ImportEntry
  errors : List String
  badgesCreated : Nat
deriving DecidableEq, Repr

/-- The owner resolution for a newly imported repository
(badgeService.js lines 50-62): look up a local user whose githubUsername
matches the snapshot owner login, falling back to the importing user. -/
def resolveRepoOwner (db : ImportDb) (snap : GithubSnap) (userId : Nat) : Nat :=
  match snap.ownerLogin with
  | some login =>
    match db.users.find? (fun u => u.githubUsername == some login) with
    | some owner => owner.id
    | none => userId
  | none => userId

/-- The repository row created for a new snapshot (badgeService.js lines
64-81), before badges are linked. -/
def newRepoRow (db : ImportDb) (snap : GithubSnap) (userId : Nat) : RepositoryRow :=
  ⟨db.nextId, snap.name, snap.fullName.toLower, resolveRepoOwner db snap userId,
    snap.description, snap.language, snap.privateFlag, snap.id, snap.htmlUrl,
    snap.cloneUrl, snap.defaultBranch.getD "main", snap.stargazersCount.getD 0,
    snap.forksCount.getD 0, snap.topics.getD [], [], true⟩

/-- The existing-repository branch of the import loop (badgeService.js
lines 39-47 and 119-124): sync the snapshot fields, record as updated,
and upsert the membership. -/
def importExistingRepo (userId : Nat) (db : ImportDb) (results : ImportResults)
    (snap : GithubSnap) (repo : RepositoryRow) (userRole : String) :
    ImportDb × ImportResults :=
  let repo2 := syncData repo snap
  let db1 := { db with
    repositories := db.repositories.map (fun (r : RepositoryRow) => if r.id == repo.id then repo2 else r) }
  let db2 := { db1 with
    memberships := addUserToRepository db1.memberships userId repo.id userRole }
  (db2, { results with
    updated := results.updated ++ [⟨repo.id, repo2.name, repo2.fullName, userRole, none⟩] })

/-- The new-repository branch of the import loop (badgeService.js lines
48-124): create the repository, seed the default badges when no default
badge exists for it yet (with no condition on the importing user's role),
link the created badges, record as imported with the active badge count,
and upsert the membership. -/
def importNewRepo (userId : Nat) (db : ImportDb) (results : ImportResults)
    (snap : GithubSnap) (userRole : String) : ImportDb × ImportResults :=
  let rid := db.nextId
  let newRepo := newRepoRow db snap userId
  let db1 := { db with repositories := db.repositories ++ [newRepo],
                       nextId := db.nextId + 1 }
  let existingBadges := db1.badges.filter (fun b => b.repository == rid && b.isDefault)
  let seeded :=
    if existingBadges.isEmpty then createDefaultBadges db1 rid userId
    else (db1, ([] : List BadgeDoc))
  let db2 : ImportDb := seeded.1
  let created : List BadgeDoc := seeded.2
  let db3 : ImportDb :=
    if created.length > 0 then
      { db2 with repositories := db2.repositories.map (fun (r : RepositoryRow) =>
          if r.id == rid then { r with badges := created.map (fun b => b.id) } else r) }
    else db2
  let badgeCount := db3.badges.countP (fun b => b.repository == rid && b.active)
  let db4 := { db3 with
    memberships := addUserToRepository db3.memberships userId rid userRole }
  (db4, { results with
    imported := results.imported ++
      [⟨rid, newRepo.name, newRepo.fullName, userRole, some badgeCount⟩],
    badgesCreated := results.badgesCreated + created.length })

/-- One iteration of the snapshot loop of BadgeService.importRepositories
(badgeService.js lines 29-135): sync an existing repository (found by its
githubId) or create it with default badges and membership. -/
def importOne (userId : Nat) (acc : ImportDb × ImportResults) (snap : GithubSnap) :
    ImportDb × ImportResults :=
  let userRole := snap.userRole.getD "contributor"
  match acc.1.repositories.find? (fun r => r.githubId == snap.id) with
  | some repo => importExistingRepo userId acc.1 acc.2 snap repo userRole
  | none => importNewRepo userId acc.1 acc.2 snap userRole

/-- BadgeService.importRepositories (badgeService.js lines 17-145): fold
of importOne over the snapshots inside one transaction; per-snapshot
failures would be pushed onto errors without aborting the loop (the model
has no storage faults, so errors stays empty). -/
def importRepositories (db : ImportDb) (userId : Nat) (snaps : List GithubSnap) :
    ImportDb × ImportResults :=
  snaps.foldl (importOne userId) (db, ⟨true, [], [], [], 0⟩)

/-! ## Webhook Ingestion Gateway -/

/-- The payload fields read by the webhook gateway (github controller):
repository identity, sender identity and the event action. -/
structure WebhookPayload where
  repoFullName : Option String
  repoOwnerLogin : Option String
  repoPrivate : Option Bool
  senderLogin : Option String
  senderId : Option Nat
  action : Option String
deriving DecidableEq, Repr

/-- An inbound webhook request: the three GitHub headers, the raw body
captured by captureRawBody before any JSON parsing, and the parsed
payload. -/
structure WebhookRequest where
  signature : Option String
  event : Option String
  deliveryId : Option String
  rawBody : String
  payload : WebhookPayload
deriving DecidableEq, Repr

/-- A WebhookEvent row (webhook-event.model.js): eventType and deliveryId
are required, deliveryId is unique. -/
structure WebhookEventRow where
  eventType : String
  deliveryId : String
  repoFullName : Option String
  repoOwner : Option String
  repoPrivate : Option Bool
  senderLogin : Option String
  senderId : Option Nat
  action : Option String
  userId : Option Nat
deriving DecidableEq, Repr

/-- The persistent state the webhook gateway can read or write: the user
collection, the WebhookEvent ledger, and the award ledger (included so
that the gateway's effect on awards is statable). -/
structure GatewayState where
  users : List UserRow
  webhookEvents : List WebhookEventRow
  awards : Ledger
deriving Repr

/-- crypto.timingSafeEqual applied to the UTF-8 byte buffers of two
strings: it throws when the buffer lengths differ (modelled as
Except.error) and otherwise reports byte equality, which for UTF-8
encodings coincides with string equality. -/
def timingSafeEqual (a b : String) : Except Unit Bool :=
  if a.utf8ByteSize = b.utf8ByteSize then Except.ok (a == b) else Except.error ()

/-- verifyGitHubSignature (github controller lines 12-28): false when the
secret is not configured; otherwise a constant-time comparison of the
supplied signature against the string "sha256=" followed by the hex HMAC
digest of the raw body.  The hmacHex parameter stands for the
crypto.createHmac sha256 hex digest, a 64-character hex string; a length
mismatch inside timingSafeEqual throws, which propagates as
Except.error. -/
def verifyGitHubSignature (webhookSecret : Option String)
    (hmacHex : String → String → String) (payload signature : String) :
    Except Unit Bool :=
  match webhookSecret with
  | none => Except.ok false
  | some secret => timingSafeEqual signature ("sha256=" ++ hmacHex secret payload)

/-- The associated-user lookup of handleWebhook (lines 52-61): when the
payload carries a repository owner login or a sender login, find a user
whose githubUsername matches either. -/
def findAssociatedUser (users : List UserRow) (p : WebhookPayload) : Option UserRow :=
  if p.repoOwnerLogin.isSome || p.senderLogin.isSome then
    users.find? (fun u =>
      u.githubUsername.isSome &&
        (u.githubUsername == p.repoOwnerLogin || u.githubUsername == p.senderLogin))
  else none

/-- The WebhookEvent.create call of handleWebhook (lines 63-88), wrapped
in its own try: a missing required header (eventType or deliveryId) or a
duplicate deliveryId makes the create throw; the error is caught and
logged, leaving the collection unchanged. -/
def storeWebhookEvent (events : List WebhookEventRow) (req : WebhookRequest)
    (userId? : Option Nat) : List WebhookEventRow :=
  match req.event, req.deliveryId with
  | some et, some did =>
    if events.any (fun e => e.deliveryId == did) then events
    else
      events ++ [⟨et, did, req.payload.repoFullName, req.payload.repoOwnerLogin,
        req.payload.repoPrivate, req.payload.senderLogin, req.payload.senderId,
        req.payload.action, userId?⟩]
  | _, _ => events

/-- The event-type switch of handleWebhook (lines 91-125).  Every handler
(push, pull_request, issues, commit_comment, create, delete, fork,
release, star, watch, and the generic fallback) only writes console logs
and, for push and pull_request, repeats the user lookup; none of them
calls BadgeService.awardBadgeForEvent or writes any collection.  The
returned list is the list of Awarding-Engine invocations (user,
repository) the dispatch performs: it is empty in every branch. -/
def dispatchEvent (event? : Option String) (_users : List UserRow)
    (_p : WebhookPayload) : List (Nat × Nat) :=
  match event? with
  | some s =>
    if s == "push" then []
    else if s == "pull_request" then []
    else if s == "issues" then []
    else if s == "commit_comment" then []
    else if s == "create" then []
    else if s == "delete" then []
    else if s == "fork" then []
    else if s == "release" then []
    else if s == "star" then []
    else if s == "watch" then []
    else []
  | none => []

/-- An HTTP response of the webhook endpoint. -/
structure WebhookResponse where
  status : Nat
  message : String
deriving DecidableEq, Repr

/-- handleWebhook (github controller lines 34-134): verify the signature
(absent signature or a false verification answers 401; a thrown length
mismatch is caught by the outer catch and answers 500), then resolve the
associated user, persist the event, dispatch to the per-type handler and
answer 200.  The second component lists the Awarding-Engine invocations
performed. -/
def handleWebhook (webhookSecret : Option String)
    (hmacHex : String → String → String) (req : WebhookRequest)
    (st : GatewayState) : WebhookResponse × List (Nat × Nat) × GatewayState :=
  match req.signature with
  | none => (⟨401, "Invalid signature"⟩, [], st)
  | some sig =>
    match verifyGitHubSignature webhookSecret hmacHex req.rawBody sig with
    | .error _ => (⟨500, "Webhook processing failed"⟩, [], st)
    | .ok false => (⟨401, "Invalid signature"⟩, [], st)
    | .ok true =>
      let associated := findAssociatedUser st.users req.payload
      let events2 := storeWebhookEvent st.webhookEvents req (associated.map (fun u => u.id))
      let calls := dispatchEvent req.event st.users req.payload
      (⟨200, "Webhook processed"⟩, calls, { st with webhookEvents := events2 })

/-! ## Well-formedness of the import database -/

/-- Well-formedness of the import database: every stored row references
an id below the fresh-id counter (Mongo ObjectIds are never reused). -/
def ImportWF (db : ImportDb) : Prop :=
  (∀ r ∈ db.repositories, r.id < db.nextId) ∧
  (∀ b ∈ db.badges, b.repository < db.nextId) ∧
  (∀ m ∈ db.memberships, m.repository < db.nextId)

/-! ## Concrete fixtures used by witnesses and counterexamples -/

/-- A one-PR default badge fixture (repository 2, threshold 1 on prs). -/
def sampleBadge : BadgeDoc :=
  ⟨3, 2, "First Contributor", CriteriaType.prs, 1, true, true, 9⟩

/-- A five-PR badge fixture (repository 2, threshold 5 on prs). -/
def sampleBadge5 : BadgeDoc :=
  ⟨4, 2, "Active Contributor", CriteriaType.prs, 5, true, true, 9⟩

/-- A contributor fixture with 5 merged PRs and 7 commits. -/
def sampleStats : ContributorStats :=
  ⟨1, "alice@example.com", "alice", 6, 5, 7, 10, 2, 1, some 100, some 200, 12⟩

/-- An import database fixture: empty collections, fresh ids from 10. -/
def importDb0 : ImportDb := ⟨[], [], [], [], 10⟩

/-- A snapshot fixture whose importing user has role contributor. -/
def snapContributor : GithubSnap :=
  ⟨42, "repo", "owner/repo", some "bob", some "contributor", none, none, false,
    "https://example.com/r", "https://example.com/r.git", none, none, none, none⟩

/-- A snapshot fixture whose importing user has role owner. -/
def snapOwner : GithubSnap :=
  ⟨42, "repo", "owner/repo", some "bob", some "owner", none, none, false,
    "https://example.com/r", "https://example.com/r.git", none, none, none, none⟩

/-- A 64-character hex digest fixture standing for an HMAC-SHA256 hex
output. -/
def digest64 : String :=
  "0123456789abcdef0123456789abcdef0123456789abcdef0123456789abcdef"

/-- An HMAC model fixture: constant 64-character hex digest. -/
def hmacConst : String → String → String := fun _ _ => digest64

/-- A pull_request payload fixture from user alice. -/
def payloadPR : WebhookPayload :=
  ⟨some "owner/repo", some "alice", some false, some "alice", some 77, some "closed"⟩

/-- A correctly signed pull_request delivery fixture (its signature equals
the string sha256= followed by the digest of hmacConst). -/
def reqSigned : WebhookRequest :=
  ⟨some ("sha256=" ++ digest64), some "pull_request", some "d-1", "rawbody", payloadPR⟩

/-- A delivery fixture with a signature of the wrong length. -/
def reqShortSig : WebhookRequest :=
  ⟨some "x", some "pull_request", some "d-2", "rawbody", payloadPR⟩

/-- A gateway state fixture: one user alice, no events, no awards. -/
def gatewayState0 : GatewayState :=
  ⟨[⟨1, "alice@example.com", some "alice", some "tok"⟩], [], []⟩

/-- A user fixture with GitHub credentials. -/
def aliceUser : UserRow := ⟨1, "alice@example.com", some "alice", some "tok"⟩

/-- The award row created by a manual check of user 1 against the one-PR
badge. -/
def manualRow : UserBadgeRow := ⟨1, 3, 2, 5, AwardedBy.system, some "manual_check"⟩

/-- A contributor fixture with 4 merged PRs (one below the five-PR
threshold). -/
def statsFour : ContributorStats :=
  ⟨1, "alice@example.com", "alice", 4, 4, 0, 0, 0, 0, none, none, 0⟩

/-- An upstream fixture whose pull-request listing fails entirely. -/
def upstreamDown : Upstream := ⟨Except.error "rate limited", Except.ok 3⟩

/-! ## Lemmas about the award ledger -/

theorem countP_eq_zero_of_any_eq_false {L : Ledger} {p : UserBadgeRow → Bool}
    (h : L.any p = false) : L.countP p = 0 := by
  rw [List.countP_eq_zero]
  intro a ha
  rw [List.any_eq_false] at h
  exact h a ha

/-- The guarded insert preserves the at-most-one invariant, whatever row
is attempted. -/
theorem insertUnique_preserves (L : Ledger) (row : UserBadgeRow)
    (h : AtMostOnePerPair L) : AtMostOnePerPair (insertUnique L row).1 := by
  unfold insertUnique
  by_cases hany : L.any (samePair row.user row.badge) = true
  · simp [hany]; exact h
  · rw [Bool.not_eq_true] at hany
    simp only [hany, Bool.false_eq_true, if_false]
    intro u b
    rw [List.countP_cons]
    by_cases hp : samePair u b row = true
    · have hub : u = row.user ∧ b = row.badge := by
        unfold samePair at hp
        simp only [Bool.and_eq_true, beq_iff_eq] at hp
        exact ⟨hp.1.symm, hp.2.symm⟩
      have h0 : L.countP (samePair u b) = 0 := by
        rw [hub.1, hub.2]
        exact countP_eq_zero_of_any_eq_false hany
      simp [hp, h0]
    · rw [Bool.not_eq_true] at hp
      simp only [hp, Bool.false_eq_true, if_false, Nat.add_zero]
      exact h u b

/-- Rows already present survive the guarded insert. -/
theorem insertUnique_mono (L : Ledger) (row r : UserBadgeRow)
    (h : r ∈ L) : r ∈ (insertUnique L row).1 := by
  unfold insertUnique
  by_cases hany : L.any (samePair row.user row.badge) = true
  · simpa [hany]
  · rw [Bool.not_eq_true] at hany
    simp only [hany, Bool.false_eq_true, if_false]
    exact List.mem_cons_of_mem _ h

/-- Every row in the output of the guarded insert was present before or is
the inserted row. -/
theorem insertUnique_rows (L : Ledger) (row r : UserBadgeRow)
    (h : r ∈ (insertUnique L row).1) : r ∈ L ∨ r = row := by
  unfold insertUnique at h
  by_cases hany : L.any (samePair row.user row.badge) = true
  · rw [if_pos hany] at h
    exact Or.inl h
  · rw [if_neg hany] at h
    rcases List.mem_cons.mp h with h1 | h2
    · exact Or.inr h1
    · exact Or.inl h2

/-- awardBadgeAt preserves the at-most-one invariant for any (possibly
stale) findOne snapshot: the unique index, not the pre-check, is the
arbiter. -/
theorem awardBadgeAt_preserves (Lfind L : Ledger) (u b rep v : Nat) (t : Option String)
    (h : AtMostOnePerPair L) :
    AtMostOnePerPair (awardBadgeAt Lfind L u b rep v t).1 := by
  unfold awardBadgeAt
  cases hf : Lfind.find? (samePair u b) with
  | some existing => simpa [hf] using h
  | none =>
    have hpres := insertUnique_preserves L ⟨u, b, rep, v, AwardedBy.system, t⟩ h
    rcases hi : insertUnique L ⟨u, b, rep, v, AwardedBy.system, t⟩ with ⟨L2, ok⟩
    rw [hi] at hpres
    cases ok <;> simpa [hf, hi] using hpres

/-- Every row in the output of awardBadgeAt either was already present or
is the single row this call attempted to create: awardedBy is the schema
default and actualValue and triggeringEvent are exactly the arguments. -/
theorem awardBadgeAt_rows (Lfind L : Ledger) (u b rep v : Nat) (t : Option String)
    (r : UserBadgeRow) (hr : r ∈ (awardBadgeAt Lfind L u b rep v t).1) :
    r ∈ L ∨ r = ⟨u, b, rep, v, AwardedBy.system, t⟩ := by
  unfold awardBadgeAt at hr
  cases hf : Lfind.find? (samePair u b) with
  | some existing =>
    rw [hf] at hr
    exact Or.inl hr
  | none =>
    rw [hf] at hr
    rcases hi : insertUnique L ⟨u, b, rep, v, AwardedBy.system, t⟩ with ⟨L2, ok⟩
    rw [hi] at hr
    have hmem : r ∈ L2 := by cases ok <;> simpa using hr
    have := insertUnique_rows L ⟨u, b, rep, v, AwardedBy.system, t⟩ r (by rw [hi]; exact hmem)
    exact this

/-- Rows already present survive awardBadgeAt (awards are never deleted). -/
theorem awardBadgeAt_mono (Lfind L : Ledger) (u b rep v : Nat) (t : Option String)
    (r : UserBadgeRow) (hr : r ∈ L) : r ∈ (awardBadgeAt Lfind L u b rep v t).1 := by
  unfold awardBadgeAt
  cases hf : Lfind.find? (samePair u b) with
  | some existing => simpa [hf]
  | none =>
    have := insertUnique_mono L ⟨u, b, rep, v, AwardedBy.system, t⟩ r hr
    rcases hi : insertUnique L ⟨u, b, rep, v, AwardedBy.system, t⟩ with ⟨L2, ok⟩
    rw [hi] at this
    cases ok <;> simpa [hf, hi] using this


/-! ## Generic fold lemmas for the award loops -/

/-- A ledger property preserved by every step of a fold is preserved by
the whole fold. -/
theorem foldl_preserves {α β : Type} (inv : Ledger → Prop)
    (f : (Ledger × β) → α → (Ledger × β))
    (hf : ∀ st a, inv st.1 → inv (f st a).1) :
    ∀ (xs : List α) (st : Ledger × β), inv st.1 → inv (xs.foldl f st).1 := by
  intro xs
  induction xs with
  | nil => intro st h; exact h
  | cons x xs ih => intro st h; exact ih (f st x) (hf st x h)

/-- If every step only adds rows satisfying P, the whole fold only adds
rows satisfying P. -/
theorem foldl_rows {α β : Type} (P : UserBadgeRow → Prop)
    (f : (Ledger × β) → α → (Ledger × β))
    (hf : ∀ st a r, r ∈ (f st a).1 → r ∈ st.1 ∨ P r) :
    ∀ (xs : List α) (st : Ledger × β) (r : UserBadgeRow),
      r ∈ (xs.foldl f st).1 → r ∈ st.1 ∨ P r := by
  intro xs
  induction xs with
  | nil => intro st r h; exact Or.inl h
  | cons x xs ih =>
    intro st r h
    rcases ih (f st x) r h with h1 | h2
    · exact hf st x r h1
    · exact Or.inr h2

/-- A sequence of guarded inserts, in any interleaving, preserves the
at-most-one invariant. -/
theorem insertFold_preserves (attempts : List UserBadgeRow) :
    ∀ L : Ledger, AtMostOnePerPair L →
      AtMostOnePerPair (attempts.foldl (fun acc row => (insertUnique acc row).1) L) := by
  induction attempts with
  | nil => intro L h; exact h
  | cons row rest ih =>
    intro L h
    exact ih _ (insertUnique_preserves L row h)

/-- awardBadge preserves the at-most-one invariant. -/
theorem awardBadge_preserves (L : Ledger) (u b rep v : Nat) (t : Option String)
    (h : AtMostOnePerPair L) : AtMostOnePerPair (awardBadge L u b rep v t).1 :=
  awardBadgeAt_preserves L L u b rep v t h

/-- Rows produced by awardBadge are old rows or the attempted row. -/
theorem awardBadge_rows (L : Ledger) (u b rep v : Nat) (t : Option String)
    (r : UserBadgeRow) (hr : r ∈ (awardBadge L u b rep v t).1) :
    r ∈ L ∨ r = ⟨u, b, rep, v, AwardedBy.system, t⟩ :=
  awardBadgeAt_rows L L u b rep v t r hr

/-- Rows already present survive awardBadge. -/
theorem awardBadge_mono (L : Ledger) (u b rep v : Nat) (t : Option String)
    (r : UserBadgeRow) (hr : r ∈ L) : r ∈ (awardBadge L u b rep v t).1 :=
  awardBadgeAt_mono L L u b rep v t r hr

/-! ## Shape lemmas for the three award loops -/

/-- The ledger after one batch iteration is either unchanged or the
ledger produced by the awardBadge call of that iteration. -/
theorem batchStep_fst (force : Bool) (repoId : Nat) (c : ContributorStats)
    (st : Ledger × BatchResults) (b : BadgeDoc) :
    (batchStep force repoId c st b).1 = st.1 ∨
      (batchStep force repoId c st b).1 =
        (awardBadge st.1 c.userId b.id repoId (getActualValue c b) (some "batch_award")).1 := by
  unfold batchStep
  by_cases h1 : (!force && st.1.any (samePair c.userId b.id)) = true
  · left; simp [h1]
  · rw [Bool.not_eq_true] at h1
    by_cases h2 : checkBadgeEligibility c b = true
    · right
      simp only [h1, Bool.false_eq_true, if_false, h2, if_true]
      rcases ha : awardBadge st.1 c.userId b.id repoId (getActualValue c b) (some "batch_award")
        with ⟨L2, out⟩
      by_cases hs : out.success = true <;> simp [ha, hs]
    · left
      simp [h1, h2]

/-- The ledger after one real-time event iteration is either unchanged or
the ledger produced by the awardBadge call of that iteration. -/
theorem eventStep_fst (userId repositoryId : Nat) (t : Option String)
    (c : ContributorStats) (st : Ledger × EventResults) (b : BadgeDoc) :
    (eventStep userId repositoryId t c st b).1 = st.1 ∨
      (eventStep userId repositoryId t c st b).1 =
        (awardBadge st.1 userId b.id repositoryId (getActualValue c b) t).1 := by
  unfold eventStep
  by_cases h1 : st.1.any (samePair userId b.id) = true
  · left; simp [h1]
  · rw [Bool.not_eq_true] at h1
    by_cases h2 : checkBadgeEligibility c b = true
    · right
      simp only [h1, Bool.false_eq_true, if_false, h2, if_true]
      rcases ha : awardBadge st.1 userId b.id repositoryId (getActualValue c b) t
        with ⟨L2, out⟩
      by_cases hs : out.success = true <;> simp [ha, hs]
    · left
      simp [h1, h2]

/-- The ledger after one manual-check iteration is either unchanged or
the ledger produced by the awardBadge call of that iteration. -/
theorem checkStep_fst (userId repositoryId : Nat) (ids : List Nat)
    (c : ContributorStats) (st : Ledger × List (Nat × String × Nat)) (b : BadgeDoc) :
    (checkStep userId repositoryId ids c st b).1 = st.1 ∨
      (checkStep userId repositoryId ids c st b).1 =
        (awardBadge st.1 userId b.id repositoryId (getActualValue c b) (some "manual_check")).1 := by
  unfold checkStep
  by_cases h1 : b.id ∈ ids
  · left; simp [h1]
  · by_cases h2 : checkBadgeEligibility c b = true
    · right
      rcases ha : awardBadge st.1 userId b.id repositoryId (getActualValue c b) (some "manual_check")
        with ⟨L2, out⟩
      by_cases hs : out.success = true <;> simp [h1, h2, ha, hs]
    · left
      simp [h1, h2]

/-- The batch procedure preserves the at-most-one invariant, for any
forceRecheck flag. -/
theorem awardBadgesForRepo_preserves (repoId : Nat) (force : Bool)
    (badges : List BadgeDoc) (contributors : List ContributorStats) (L : Ledger)
    (h : AtMostOnePerPair L) :
    AtMostOnePerPair (awardBadgesForRepo repoId force badges contributors L).1 := by
  unfold awardBadgesForRepo
  by_cases he : badges.isEmpty = true
  · simpa [he] using h
  · rw [Bool.not_eq_true] at he
    simp only [he, Bool.false_eq_true, if_false]
    refine foldl_preserves AtMostOnePerPair _ ?_ contributors _ h
    intro st c hst
    refine foldl_preserves AtMostOnePerPair _ ?_ badges st hst
    intro st2 b hst2
    rcases batchStep_fst force repoId c st2 b with hc | hc
    · rw [hc]; exact hst2
    · rw [hc]
      exact awardBadge_preserves st2.1 c.userId b.id repoId (getActualValue c b)
        (some "batch_award") hst2

/-- The real-time procedure preserves the at-most-one invariant. -/
theorem awardBadgeForEvent_preserves (userId repositoryId : Nat) (t : Option String)
    (userStats : List ContributorStats) (badges : List BadgeDoc) (L : Ledger)
    (h : AtMostOnePerPair L) :
    AtMostOnePerPair (awardBadgeForEvent userId repositoryId t userStats badges L).1 := by
  unfold awardBadgeForEvent
  cases userStats with
  | nil => exact h
  | cons c rest =>
    refine foldl_preserves AtMostOnePerPair _ ?_ badges _ h
    intro st2 b hst2
    rcases eventStep_fst userId repositoryId t c st2 b with hc | hc
    · rw [hc]; exact hst2
    · rw [hc]
      exact awardBadge_preserves st2.1 userId b.id repositoryId (getActualValue c b) t hst2

/-- The manual check endpoint preserves the at-most-one invariant. -/
theorem checkAndAwardBadges_preserves (userId repositoryId : Nat) (ok : Bool)
    (stats : List ContributorStats) (badges : List BadgeDoc) (L : Ledger)
    (h : AtMostOnePerPair L) :
    AtMostOnePerPair (checkAndAwardBadges userId repositoryId ok stats badges L).1 := by
  unfold checkAndAwardBadges
  by_cases hok : (!ok) = true
  · simpa [hok] using h
  · rw [Bool.not_eq_true] at hok
    simp only [hok, Bool.false_eq_true, if_false]
    cases stats with
    | nil => exact h
    | cons c rest =>
      refine foldl_preserves AtMostOnePerPair _ ?_ badges _ h
      intro st2 b hst2
      rcases checkStep_fst userId repositoryId _ c st2 b with hc | hc
      · rw [hc]; exact hst2
      · rw [hc]
        exact awardBadge_preserves st2.1 userId b.id repositoryId (getActualValue c b)
          (some "manual_check") hst2

/-- A membership-aware variant of the fold lemma: if every step applied
to an element of the list only adds rows satisfying P, so does the whole
fold. -/
theorem foldl_rows_mem {α β : Type} (P : UserBadgeRow → Prop)
    (f : (Ledger × β) → α → (Ledger × β)) :
    ∀ (xs : List α),
      (∀ st a, a ∈ xs → ∀ r, r ∈ (f st a).1 → r ∈ st.1 ∨ P r) →
      ∀ st r, r ∈ (xs.foldl f st).1 → r ∈ st.1 ∨ P r := by
  intro xs
  induction xs with
  | nil => intro _ st r h; exact Or.inl h
  | cons x xs ih =>
    intro hf st r h
    rcases ih (fun st2 a ha => hf st2 a (List.mem_cons_of_mem _ ha)) (f st x) r h
      with h1 | h2
    · exact hf st x (List.mem_cons_self _ _) r h1
    · exact Or.inr h2

/-- Every row produced by the batch procedure is an old row or the exact
row attempted by one of its awardBadge calls. -/
theorem awardBadgesForRepo_rows (repoId : Nat) (force : Bool)
    (badges : List BadgeDoc) (contributors : List ContributorStats) (L : Ledger)
    (r : UserBadgeRow)
    (hr : r ∈ (awardBadgesForRepo repoId force badges contributors L).1) :
    r ∈ L ∨ ∃ c ∈ contributors, ∃ b ∈ badges,
      r = ⟨c.userId, b.id, repoId, getActualValue c b, AwardedBy.system,
        some "batch_award"⟩ := by
  unfold awardBadgesForRepo at hr
  by_cases he : badges.isEmpty = true
  · rw [if_pos he] at hr
    exact Or.inl hr
  · rw [if_neg he] at hr
    refine foldl_rows_mem (fun r2 => ∃ c ∈ contributors, ∃ b ∈ badges,
      r2 = ⟨c.userId, b.id, repoId, getActualValue c b, AwardedBy.system,
        some "batch_award"⟩) _ contributors ?_ _ r hr
    intro st c hc r' hr'
    have hinner := foldl_rows_mem (fun r2 => ∃ b ∈ badges,
        r2 = ⟨c.userId, b.id, repoId, getActualValue c b, AwardedBy.system,
          some "batch_award"⟩)
      (batchStep force repoId c) badges ?_ st r' hr'
    · rcases hinner with h1 | ⟨b, hb, heq⟩
      · exact Or.inl h1
      · exact Or.inr ⟨c, hc, b, hb, heq⟩
    · intro st2 b hb r2 hr2
      rcases batchStep_fst force repoId c st2 b with hc2 | hc2
      · rw [hc2] at hr2; exact Or.inl hr2
      · rw [hc2] at hr2
        rcases awardBadge_rows _ _ _ _ _ _ _ hr2 with h1 | h2
        · exact Or.inl h1
        · exact Or.inr ⟨b, hb, h2⟩

/-- Every row produced by the real-time procedure is an old row or the
exact row attempted by one of its awardBadge calls. -/
theorem awardBadgeForEvent_rows (userId repositoryId : Nat) (t : Option String)
    (userStats : List ContributorStats) (badges : List BadgeDoc) (L : Ledger)
    (r : UserBadgeRow)
    (hr : r ∈ (awardBadgeForEvent userId repositoryId t userStats badges L).1) :
    r ∈ L ∨ ∃ c ∈ userStats, ∃ b ∈ badges,
      r = ⟨userId, b.id, repositoryId, getActualValue c b, AwardedBy.system, t⟩ := by
  unfold awardBadgeForEvent at hr
  cases userStats with
  | nil => exact Or.inl hr
  | cons c rest =>
    have hinner := foldl_rows_mem (fun r2 => ∃ b ∈ badges,
        r2 = ⟨userId, b.id, repositoryId, getActualValue c b, AwardedBy.system, t⟩)
      (eventStep userId repositoryId t c) badges ?_ _ r hr
    · rcases hinner with h1 | ⟨b, hb, heq⟩
      · exact Or.inl h1
      · exact Or.inr ⟨c, List.mem_cons_self _ _, b, hb, heq⟩
    · intro st2 b hb r2 hr2
      rcases eventStep_fst userId repositoryId t c st2 b with hc2 | hc2
      · rw [hc2] at hr2; exact Or.inl hr2
      · rw [hc2] at hr2
        rcases awardBadge_rows _ _ _ _ _ _ _ hr2 with h1 | h2
        · exact Or.inl h1
        · exact Or.inr ⟨b, hb, h2⟩

/-- Every row produced by the manual check endpoint is an old row or the
exact row attempted by one of its awardBadge calls. -/
theorem checkAndAwardBadges_rows (userId repositoryId : Nat) (ok : Bool)
    (stats : List ContributorStats) (badges : List BadgeDoc) (L : Ledger)
    (r : UserBadgeRow)
    (hr : r ∈ (checkAndAwardBadges userId repositoryId ok stats badges L).1) :
    r ∈ L ∨ ∃ c ∈ stats, ∃ b ∈ badges,
      r = ⟨userId, b.id, repositoryId, getActualValue c b, AwardedBy.system,
        some "manual_check"⟩ := by
  unfold checkAndAwardBadges at hr
  by_cases hok : (!ok) = true
  · rw [if_pos hok] at hr
    exact Or.inl hr
  · rw [if_neg hok] at hr
    cases stats with
    | nil => exact Or.inl hr
    | cons c rest =>
      have hinner := foldl_rows_mem (fun r2 => ∃ b ∈ badges,
          r2 = ⟨userId, b.id, repositoryId, getActualValue c b, AwardedBy.system,
            some "manual_check"⟩)
        (checkStep userId repositoryId _ c) badges ?_ _ r hr
      · rcases hinner with h1 | ⟨b, hb, heq⟩
        · exact Or.inl h1
        · exact Or.inr ⟨c, List.mem_cons_self _ _, b, hb, heq⟩
      · intro st2 b hb r2 hr2
        rcases checkStep_fst userId repositoryId _ c st2 b with hc2 | hc2
        · rw [hc2] at hr2; exact Or.inl hr2
        · rw [hc2] at hr2
          rcases awardBadge_rows _ _ _ _ _ _ _ hr2 with h1 | h2
          · exact Or.inl h1
          · exact Or.inr ⟨b, hb, h2⟩

/-- The event-type dispatch never invokes the Awarding Engine, whatever
the event type. -/
theorem dispatchEvent_nil (e : Option String) (us : List UserRow)
    (p : WebhookPayload) : dispatchEvent e us p = [] := by
  unfold dispatchEvent
  cases e with
  | none => rfl
  | some s => simp

/-! ## Lemmas about the import service -/

/-- A map that fixes every element of a list leaves the list unchanged. -/
theorem map_noop {α : Type} (l : List α) (f : α → α) (h : ∀ a ∈ l, f a = a) :
    l.map f = l := by
  induction l with
  | nil => rfl
  | cons x xs ih =>
    rw [List.map_cons, h x (List.mem_cons_self _ _),
      ih (fun a ha => h a (List.mem_cons_of_mem _ ha))]

/-- Seeding the default badges on a repository id no existing badge
references inserts exactly the four default badges, with consecutive
fresh ids, and returns them. -/
theorem createDefaultBadges_fresh (db : ImportDb) (rid uid : Nat)
    (hfresh : ∀ b ∈ db.badges, b.repository ≠ rid) :
    createDefaultBadges db rid uid =
      (⟨db.users, db.repositories,
        db.badges ++
          [⟨db.nextId, rid, "First Contributor", CriteriaType.prs, 1, true, true, uid⟩,
           ⟨db.nextId + 1, rid, "Active Contributor", CriteriaType.prs, 5, true, true, uid⟩,
           ⟨db.nextId + 2, rid, "Super Contributor", CriteriaType.prs, 20, true, true, uid⟩,
           ⟨db.nextId + 3, rid, "Commit Champion", CriteriaType.commits, 50, true, true, uid⟩],
        db.memberships, db.nextId + 4⟩,
       [⟨db.nextId, rid, "First Contributor", CriteriaType.prs, 1, true, true, uid⟩,
        ⟨db.nextId + 1, rid, "Active Contributor", CriteriaType.prs, 5, true, true, uid⟩,
        ⟨db.nextId + 2, rid, "Super Contributor", CriteriaType.prs, 20, true, true, uid⟩,
        ⟨db.nextId + 3, rid, "Commit Champion", CriteriaType.commits, 50, true, true, uid⟩]) := by
  have hex : ∀ (ct : CriteriaType) (cv : Nat),
      ¬∃ x ∈ db.badges, (x.repository = rid ∧ x.criteriaType = ct) ∧
        x.criteriaValue = cv := by
    rintro ct cv ⟨x, hx, ⟨h1, _⟩, _⟩
    exact hfresh x hx h1
  unfold createDefaultBadges defaultBadgeTemplates
  simp [hex, List.mem_append, or_and_right, exists_or, List.append_assoc, Nat.add_assoc]

/-- Importing a new repository into a well-formed database creates the
repository row linked to the four freshly seeded default badges, appends
the membership row for the importing user, reports badgeCount 4 in
the imported entry and adds 4 to badgesCreated — whatever the user role. -/
theorem importNewRepo_eq (uid : Nat) (db : ImportDb) (results : ImportResults)
    (snap : GithubSnap) (role : String)
    (hWFr : ∀ r ∈ db.repositories, r.id < db.nextId)
    (hWFb : ∀ b ∈ db.badges, b.repository < db.nextId)
    (hWFm : ∀ m ∈ db.memberships, m.repository < db.nextId) :
    importNewRepo uid db results snap role =
      (⟨db.users,
        db.repositories ++
          [{ newRepoRow db snap uid with
              badges := [db.nextId + 1, db.nextId + 2, db.nextId + 3, db.nextId + 4] }],
        db.badges ++
          [⟨db.nextId + 1, db.nextId, "First Contributor", CriteriaType.prs, 1, true, true, uid⟩,
           ⟨db.nextId + 2, db.nextId, "Active Contributor", CriteriaType.prs, 5, true, true, uid⟩,
           ⟨db.nextId + 3, db.nextId, "Super Contributor", CriteriaType.prs, 20, true, true, uid⟩,
           ⟨db.nextId + 4, db.nextId, "Commit Champion", CriteriaType.commits, 50, true, true, uid⟩],
        db.memberships ++
          [applyRoleHook ⟨uid, db.nextId, role, true, role == "owner", true, role == "owner"⟩],
        db.nextId + 5⟩,
       { results with
          imported := results.imported ++
            [⟨db.nextId, snap.name, snap.fullName.toLower, role, some 4⟩],
          badgesCreated := results.badgesCreated + 4 }) := by
  have hne : ∀ b ∈ db.badges, b.repository ≠ db.nextId :=
    fun b hb => Nat.ne_of_lt (hWFb b hb)
  have hfilter : db.badges.filter (fun b => b.repository == db.nextId && b.isDefault) = [] := by
    rw [List.filter_eq_nil_iff]
    intro b hb
    simp only [Bool.and_eq_true, beq_iff_eq]
    rintro ⟨h1, _⟩
    exact hne b hb h1
  have hcreate := createDefaultBadges_fresh
    ⟨db.users, db.repositories ++ [newRepoRow db snap uid], db.badges, db.memberships,
      db.nextId + 1⟩ db.nextId uid hne
  have hmem : db.memberships.any (fun m => m.user == uid && m.repository == db.nextId) = false := by
    rw [List.any_eq_false]
    intro m hm
    simp only [Bool.and_eq_true, beq_iff_eq]
    rintro ⟨_, h2⟩
    exact Nat.ne_of_lt (hWFm m hm) h2
  have hmap : ∀ ids : List Nat,
      db.repositories.map (fun r =>
        if r.id = db.nextId then { r with badges := ids } else r) = db.repositories := by
    intro ids
    refine map_noop _ _ ?_
    intro r hr
    rw [if_neg (Nat.ne_of_lt (hWFr r hr))]
  have hcount : db.badges.countP (fun b => b.repository == db.nextId && b.active) = 0 := by
    rw [List.countP_eq_zero]
    intro b hb
    simp only [Bool.and_eq_true, beq_iff_eq]
    rintro ⟨h1, _⟩
    exact hne b hb h1
  have hid : (newRepoRow db snap uid).id = db.nextId := rfl
  have hname : (newRepoRow db snap uid).name = snap.name := rfl
  have hfull : (newRepoRow db snap uid).fullName = snap.fullName.toLower := rfl
  simp only [] at hcreate
  unfold importNewRepo addUserToRepository
  simp [hfilter, hcreate, hmem, hmap, hcount, hid, hname, hfull, List.map_append,
    List.countP_append, List.append_assoc, Nat.add_assoc]

/-- applyRoleHook never alters the user reference. -/
theorem applyRoleHook_user (m : MembershipRow) : (applyRoleHook m).user = m.user := by
  unfold applyRoleHook
  split <;> rfl

/-- applyRoleHook never alters the repository reference. -/
theorem applyRoleHook_repository (m : MembershipRow) :
    (applyRoleHook m).repository = m.repository := by
  unfold applyRoleHook
  split <;> rfl

/-- Importing a single fresh snapshot takes the new-repository branch. -/
theorem importRepositories_single_new (db : ImportDb) (uid : Nat) (snap : GithubSnap)
    (hg : ∀ r ∈ db.repositories, r.githubId ≠ snap.id) :
    importRepositories db uid [snap] =
      importNewRepo uid db ⟨true, [], [], [], 0⟩ snap (snap.userRole.getD "contributor") := by
  have hfind : db.repositories.find? (fun r => r.githubId == snap.id) = none := by
    rw [List.find?_eq_none]
    intro r hr
    simp [hg r hr]
  unfold importRepositories importOne
  simp only [List.foldl_cons, List.foldl_nil]
  simp [hfind]

/-! ## Claim theorems -/

/-- C1: for every user U and badge B the Award Ledger never contains more
than one row with the pair (U, B), no matter how many times or how
concurrently the awarding procedures are invoked: every interleaving of
the atomic unique-index inserts (the only ledger writes any awarding
procedure performs) preserves the at-most-one invariant, and so do
awardBadgesForRepo (with any forceRecheck flag), awardBadgeForEvent and
checkAndAwardBadges. -/
theorem C1_at_most_one_award (L : Ledger) (h : AtMostOnePerPair L) :
    (∀ attempts : List UserBadgeRow,
      AtMostOnePerPair (attempts.foldl (fun acc row => (insertUnique acc row).1) L)) ∧
    (∀ (repoId : Nat) (force : Bool) (badges : List BadgeDoc)
        (contributors : List ContributorStats),
      AtMostOnePerPair (awardBadgesForRepo repoId force badges contributors L).1) ∧
    (∀ (u rep : Nat) (t : Option String) (stats : List ContributorStats)
        (badges : List BadgeDoc),
      AtMostOnePerPair (awardBadgeForEvent u rep t stats badges L).1) ∧
    (∀ (u rep : Nat) (ok : Bool) (stats : List ContributorStats)
        (badges : List BadgeDoc),
      AtMostOnePerPair (checkAndAwardBadges u rep ok stats badges L).1) :=
  ⟨fun attempts => insertFold_preserves attempts L h,
   fun rid f bs cs => awardBadgesForRepo_preserves rid f bs cs L h,
   fun u rep t ss bs => awardBadgeForEvent_preserves u rep t ss bs L h,
   fun u rep ok ss bs => checkAndAwardBadges_preserves u rep ok ss bs L h⟩

/-- Witness for C1 at a concrete input: the empty ledger satisfies the
invariant, and a concrete batch run (forceRecheck included) keeps it. -/
theorem C1_at_most_one_award_witness :
    AtMostOnePerPair ([] : Ledger) ∧
    AtMostOnePerPair (awardBadgesForRepo 2 true [sampleBadge, sampleBadge5]
      [sampleStats] []).1 :=
  ⟨fun u b => by simp,
   (C1_at_most_one_award [] (fun u b => by simp)).2.1 2 true
     [sampleBadge, sampleBadge5] [sampleStats]⟩

/-- C2: a repeat award attempt for an already awarded (U, B) pair creates
no new row and returns the already-awarded value (not an exception): the
attempt after an initial successful award finds the existing row and
leaves the ledger unchanged, and an attempt that lost a race (its findOne
snapshot missed the pair but the unique-index insert hits it) also leaves
the ledger unchanged and returns the caught no-op result. -/
theorem C2_idempotent_awarding (L : Ledger) (u b rep rep2 v v2 : Nat)
    (t t2 : Option String)
    (hs : (awardBadge L u b rep v t).2.success = true) :
    (awardBadge (awardBadge L u b rep v t).1 u b rep2 v2 t2 =
      ((awardBadge L u b rep v t).1,
        ⟨false, "Badge already awarded to user",
          some ⟨u, b, rep, v, AwardedBy.system, t⟩⟩)) ∧
    (∀ (Lfind L2 : Ledger), Lfind.find? (samePair u b) = none →
      L2.any (samePair u b) = true →
      awardBadgeAt Lfind L2 u b rep2 v2 t2 =
        (L2, ⟨false, "Badge already awarded to user", none⟩)) := by
  constructor
  · unfold awardBadge awardBadgeAt at hs ⊢
    cases hf : L.find? (samePair u b) with
    | some e => rw [hf] at hs; simp at hs
    | none =>
      rw [hf] at hs
      have hany : L.any (samePair u b) = false := by
        rw [List.any_eq_false]
        intro x hx
        have hnx := List.find?_eq_none.mp hf x hx
        simpa using hnx
      simp only [insertUnique, hany, Bool.false_eq_true, if_false] at hs ⊢
      have hpair : samePair u b ⟨u, b, rep, v, AwardedBy.system, t⟩ = true := by
        simp [samePair]
      rw [List.find?_cons_of_pos _ hpair]
  · intro Lfind L2 hf hany
    unfold awardBadgeAt
    rw [hf]
    simp [insertUnique, hany]

/-- Witness for C2 at a concrete input: awarding badge 2 to user 1 on the
empty ledger succeeds, and the theorem applies. -/
theorem C2_idempotent_awarding_witness :
    (awardBadge ([] : Ledger) 1 2 3 4 none).2.success = true ∧
    awardBadge (awardBadge ([] : Ledger) 1 2 3 4 none).1 1 2 3 9 (some "again") =
      ((awardBadge ([] : Ledger) 1 2 3 4 none).1,
        ⟨false, "Badge already awarded to user",
          some ⟨1, 2, 3, 4, AwardedBy.system, none⟩⟩) :=
  ⟨by decide,
   (C2_idempotent_awarding [] 1 2 3 3 4 9 none (some "again") (by decide)).1⟩

/-- C4: eligibility holds exactly when the badge tests prs and the
contributor has at least criteriaValue merged PRs, or the badge tests
commits and the contributor has at least criteriaValue commits; every
other criteria type is ineligible; and on the prs boundary, threshold
minus one merged PRs is not eligible while exactly threshold is. -/
theorem C4_eligibility (stats : ContributorStats) (badge : BadgeDoc) :
    (checkBadgeEligibility stats badge = true ↔
      (badge.criteriaType = CriteriaType.prs ∧
        badge.criteriaValue ≤ stats.mergedPRs) ∨
      (badge.criteriaType = CriteriaType.commits ∧
        badge.criteriaValue ≤ stats.totalCommits)) ∧
    (badge.criteriaType = CriteriaType.prs → 1 ≤ badge.criteriaValue →
      (stats.mergedPRs = badge.criteriaValue - 1 →
        checkBadgeEligibility stats badge = false) ∧
      (stats.mergedPRs = badge.criteriaValue →
        checkBadgeEligibility stats badge = true)) := by
  constructor
  · unfold checkBadgeEligibility
    cases h : badge.criteriaType <;> simp [h]
  · intro hprs hpos
    constructor
    · intro hm
      simp only [checkBadgeEligibility, hprs, hm]
      simp only [decide_eq_false_iff_not]
      omega
    · intro hm
      simp [checkBadgeEligibility, hprs, hm]

/-- Witness for C4 at a concrete input: against the five-PR badge, four
merged PRs are not eligible and five are. -/
theorem C4_eligibility_witness :
    checkBadgeEligibility statsFour sampleBadge5 = false ∧
    checkBadgeEligibility sampleStats sampleBadge5 = true :=
  ⟨((C4_eligibility statsFour sampleBadge5).2 rfl (by decide)).1 rfl,
   ((C4_eligibility sampleStats sampleBadge5).2 rfl (by decide)).2 rfl⟩

/-- C10: every entry of the progress report carries
progress = min((currentValue / criteriaValue) * 100, 100), so the
reported progress never exceeds 100; and when the user has no statistics
record at all, the report is computed against the zeroed contributor
record (and equals the report for an explicit zeroed record). -/
theorem C10_progress_cap (userId repositoryId : Nat)
    (userStats : List ContributorStats) (badges : List BadgeDoc) (L : Ledger) :
    (∀ e ∈ (getUserBadgeProgress userId repositoryId userStats badges L).progress,
      e.progress = min ((e.currentValue : ℚ) / (e.requiredValue : ℚ) * 100) 100 ∧
      e.progress ≤ 100) ∧
    (userStats = [] →
      (getUserBadgeProgress userId repositoryId userStats badges L).contributor =
        zeroContributor ∧
      (getUserBadgeProgress userId repositoryId userStats badges L).progress =
        (getUserBadgeProgress userId repositoryId [zeroContributor] badges L).progress) := by
  constructor
  · intro e he
    unfold getUserBadgeProgress at he
    simp only [List.mem_map] at he
    obtain ⟨b, hb, rfl⟩ := he
    exact ⟨rfl, min_le_right _ _⟩
  · intro h
    subst h
    exact ⟨rfl, rfl⟩

/-- Witness for C10 at a concrete input: the empty statistics list falls
back to the zeroed contributor, and the single entry against the five-PR
badge is capped at 100. -/
theorem C10_progress_cap_witness :
    ([] : List ContributorStats) = [] ∧
    (getUserBadgeProgress 1 2 [] [sampleBadge5] []).contributor = zeroContributor ∧
    (⟨sampleBadge, false, 5, 1, min ((5 : ℚ) / (1 : ℚ) * 100) 100⟩ : ProgressEntry).progress ≤ 100 :=
  ⟨rfl,
   ((C10_progress_cap 1 2 [] [sampleBadge5] []).2 rfl).1,
   ((C10_progress_cap 1 2 [sampleStats] [sampleBadge] []).1
      ⟨sampleBadge, false, 5, 1, min ((5 : ℚ) / (1 : ℚ) * 100) 100⟩
      (List.mem_singleton.mpr rfl)).2⟩

/-- C8: when the upstream pull-request listing fails entirely, the
statistics provider returns the empty record (not a partial aggregate)
with the error captured in its log output, and the real-time awarding
path leaves the ledger unchanged and reports the no-contributions
result: no award is ever created from the failed fetch. -/
theorem C8_fetch_failure_no_award (user : UserRow) (username token e : String)
    (upstream : Upstream)
    (hu : user.githubUsername = some username)
    (ht : user.githubToken = some token)
    (he : upstream.pulls = Except.error e) :
    getContributorStats true (some user) upstream =
      ([], ["Error in getContributorStats: " ++ e]) ∧
    (∀ (uid rid : Nat) (t : Option String) (badges : List BadgeDoc) (L : Ledger),
      (awardBadgeForEventLive true (some user) upstream uid rid t badges L).1 = L ∧
      (awardBadgeForEventLive true (some user) upstream uid rid t badges L).2.1 =
        ⟨false, some "No contributions found for user in this repository", 0, []⟩) := by
  have hstats : getContributorStats true (some user) upstream =
      ([], ["Error in getContributorStats: " ++ e]) := by
    unfold getContributorStats
    simp only [Bool.not_true, Bool.false_eq_true, if_false]
    rw [hu, ht]
    unfold fetchGitHubPRStats
    rw [he]
  refine ⟨hstats, ?_⟩
  intro uid rid t badges L
  unfold awardBadgeForEventLive
  rw [hstats]
  unfold awardBadgeForEvent
  simp

/-- Witness for C8 at a concrete input: alice with credentials, upstream
listing failing with a rate-limit error. -/
theorem C8_fetch_failure_no_award_witness :
    aliceUser.githubUsername = some "alice" ∧
    aliceUser.githubToken = some "tok" ∧
    upstreamDown.pulls = Except.error "rate limited" ∧
    (awardBadgeForEventLive true (some aliceUser) upstreamDown 1 2 (some "evt")
      [sampleBadge] []).1 = [] :=
  ⟨rfl, rfl, rfl,
   ((C8_fetch_failure_no_award aliceUser "alice" "tok" "rate limited" upstreamDown
      rfl rfl rfl).2 1 2 (some "evt") [sampleBadge] []).1⟩

/-- handleWebhook with a missing signature header answers 401 and leaves
the state untouched. -/
theorem handleWebhook_eq_none (secret : Option String)
    (hmacHex : String → String → String) (req : WebhookRequest) (st : GatewayState)
    (h : req.signature = none) :
    handleWebhook secret hmacHex req st = (⟨401, "Invalid signature"⟩, [], st) := by
  unfold handleWebhook
  rw [h]

/-- handleWebhook answers 500 and leaves the state untouched when the
signature comparison throws. -/
theorem handleWebhook_eq_error (secret : Option String)
    (hmacHex : String → String → String) (req : WebhookRequest) (st : GatewayState)
    (sig : String) (h : req.signature = some sig)
    (hv : verifyGitHubSignature secret hmacHex req.rawBody sig = Except.error ()) :
    handleWebhook secret hmacHex req st =
      (⟨500, "Webhook processing failed"⟩, [], st) := by
  unfold handleWebhook
  rw [h]
  simp only [hv]

/-- handleWebhook answers 401 and leaves the state untouched when the
signature verification returns false. -/
theorem handleWebhook_eq_false (secret : Option String)
    (hmacHex : String → String → String) (req : WebhookRequest) (st : GatewayState)
    (sig : String) (h : req.signature = some sig)
    (hv : verifyGitHubSignature secret hmacHex req.rawBody sig = Except.ok false) :
    handleWebhook secret hmacHex req st = (⟨401, "Invalid signature"⟩, [], st) := by
  unfold handleWebhook
  rw [h]
  simp only [hv]

/-- handleWebhook on a verified request answers 200, persists the event
with the resolved user, and dispatches (which never calls the engine). -/
theorem handleWebhook_eq_true (secret : Option String)
    (hmacHex : String → String → String) (req : WebhookRequest) (st : GatewayState)
    (sig : String) (h : req.signature = some sig)
    (hv : verifyGitHubSignature secret hmacHex req.rawBody sig = Except.ok true) :
    handleWebhook secret hmacHex req st =
      (⟨200, "Webhook processed"⟩, dispatchEvent req.event st.users req.payload,
        ⟨st.users,
          storeWebhookEvent st.webhookEvents req
            ((findAssociatedUser st.users req.payload).map (fun u => u.id)),
          st.awards⟩) := by
  unfold handleWebhook
  rw [h]
  simp only [hv]

/-- C3 counterexample: a correctly signed pull_request delivery from a
user who is eligible for an unawarded badge (the real-time path would
award it, as the last conjunct shows) is acknowledged with 200 and
persisted, yet the gateway performs no Awarding-Engine invocation and the
award ledger stays empty — the claimed dispatch to the engine does not
happen. -/
theorem C3_counterexample :
    (handleWebhook (some "secret") hmacConst reqSigned gatewayState0).1.status = 200 ∧
    reqSigned.event = some "pull_request" ∧
    (handleWebhook (some "secret") hmacConst reqSigned gatewayState0).2.2.webhookEvents.length = 1 ∧
    (handleWebhook (some "secret") hmacConst reqSigned gatewayState0).2.1 = [] ∧
    (handleWebhook (some "secret") hmacConst reqSigned gatewayState0).2.2.awards = [] ∧
    (awardBadgeForEvent 1 2 (some "webhook") [sampleStats] [sampleBadge] []).2.awardsGiven = 1 := by
  decide

/-- C3 amended: for every inbound webhook event the gateway performs no
Awarding-Engine invocation and leaves the award ledger (and the user
collection) untouched; for verified events it persists the event with the
resolved associated user, but no Award can result from the webhook
flow. -/
theorem C3_no_engine_dispatch (secret : Option String)
    (hmacHex : String → String → String) (req : WebhookRequest) (st : GatewayState) :
    (handleWebhook secret hmacHex req st).2.1 = [] ∧
    (handleWebhook secret hmacHex req st).2.2.awards = st.awards ∧
    (handleWebhook secret hmacHex req st).2.2.users = st.users ∧
    (∀ sig, req.signature = some sig →
      verifyGitHubSignature secret hmacHex req.rawBody sig = Except.ok true →
      (handleWebhook secret hmacHex req st).2.2.webhookEvents =
        storeWebhookEvent st.webhookEvents req
          ((findAssociatedUser st.users req.payload).map (fun u => u.id))) := by
  cases hsig : req.signature with
  | none =>
    rw [handleWebhook_eq_none secret hmacHex req st hsig]
    refine ⟨rfl, rfl, rfl, ?_⟩
    intro sig h _
    exact Option.noConfusion h
  | some sig0 =>
    cases hv : verifyGitHubSignature secret hmacHex req.rawBody sig0 with
    | error u =>
      rw [handleWebhook_eq_error secret hmacHex req st sig0 hsig hv]
      refine ⟨rfl, rfl, rfl, ?_⟩
      intro sig h hvt
      injection h with h2
      rw [← h2, hv] at hvt
      exact Except.noConfusion hvt
    | ok bl =>
      cases bl with
      | false =>
        rw [handleWebhook_eq_false secret hmacHex req st sig0 hsig hv]
        refine ⟨rfl, rfl, rfl, ?_⟩
        intro sig h hvt
        injection h with h2
        rw [← h2, hv] at hvt
        injection hvt with h3
        exact Bool.noConfusion h3
      | true =>
        rw [handleWebhook_eq_true secret hmacHex req st sig0 hsig hv]
        exact ⟨dispatchEvent_nil req.event st.users req.payload, rfl, rfl,
          fun sig h hvt => rfl⟩

/-- Witness for C3 at a concrete input: the correctly signed pull_request
delivery satisfies the verification hypothesis and is persisted with the
resolved user. -/
theorem C3_no_engine_dispatch_witness :
    reqSigned.signature = some ("sha256=" ++ digest64) ∧
    verifyGitHubSignature (some "secret") hmacConst reqSigned.rawBody
      ("sha256=" ++ digest64) = Except.ok true ∧
    (handleWebhook (some "secret") hmacConst reqSigned gatewayState0).2.2.webhookEvents =
      storeWebhookEvent gatewayState0.webhookEvents reqSigned
        ((findAssociatedUser gatewayState0.users reqSigned.payload).map (fun u => u.id)) :=
  ⟨rfl, rfl,
   (C3_no_engine_dispatch (some "secret") hmacConst reqSigned gatewayState0).2.2.2
     ("sha256=" ++ digest64) rfl rfl⟩

/-- C6 counterexample: a request carrying a signature of the wrong length
(one byte instead of the 71-byte sha256= digest string) is answered 500,
not 401, because timingSafeEqual throws on differing buffer lengths and
the outer catch converts that into a processing failure; no WebhookEvent
is persisted either way. -/
theorem C6_counterexample :
    reqShortSig.signature = some "x" ∧
    (handleWebhook (some "secret") hmacConst reqShortSig gatewayState0).1.status = 500 ∧
    (handleWebhook (some "secret") hmacConst reqShortSig gatewayState0).1.status ≠ 401 ∧
    (handleWebhook (some "secret") hmacConst reqShortSig gatewayState0).2.2.webhookEvents = [] := by
  decide

/-- C6 amended: a missing signature header, an unconfigured secret, or a
supplied signature of the same byte length as the expected digest string
but different from it, are each answered 401; a supplied signature whose
byte length differs from the expected digest string makes the comparison
throw and is answered 500; in every one of these cases no WebhookEvent
row is persisted. -/
theorem C6_signature_failure (secret : Option String)
    (hmacHex : String → String → String) (req : WebhookRequest) (st : GatewayState) :
    (req.signature = none →
      (handleWebhook secret hmacHex req st).1.status = 401 ∧
      (handleWebhook secret hmacHex req st).2.2.webhookEvents = st.webhookEvents) ∧
    (∀ sig, req.signature = some sig → secret = none →
      (handleWebhook secret hmacHex req st).1.status = 401 ∧
      (handleWebhook secret hmacHex req st).2.2.webhookEvents = st.webhookEvents) ∧
    (∀ sig s, req.signature = some sig → secret = some s →
      sig.utf8ByteSize = ("sha256=" ++ hmacHex s req.rawBody).utf8ByteSize →
      sig ≠ "sha256=" ++ hmacHex s req.rawBody →
      (handleWebhook secret hmacHex req st).1.status = 401 ∧
      (handleWebhook secret hmacHex req st).2.2.webhookEvents = st.webhookEvents) ∧
    (∀ sig s, req.signature = some sig → secret = some s →
      sig.utf8ByteSize ≠ ("sha256=" ++ hmacHex s req.rawBody).utf8ByteSize →
      (handleWebhook secret hmacHex req st).1.status = 500 ∧
      (handleWebhook secret hmacHex req st).2.2.webhookEvents = st.webhookEvents) := by
  refine ⟨?_, ?_, ?_, ?_⟩
  · intro h
    rw [handleWebhook_eq_none secret hmacHex req st h]
    exact ⟨rfl, rfl⟩
  · intro sig h hsec
    have hv : verifyGitHubSignature secret hmacHex req.rawBody sig = Except.ok false := by
      unfold verifyGitHubSignature
      rw [hsec]
    rw [handleWebhook_eq_false secret hmacHex req st sig h hv]
    exact ⟨rfl, rfl⟩
  · intro sig s h hsec hlen hne
    have hv : verifyGitHubSignature secret hmacHex req.rawBody sig = Except.ok false := by
      unfold verifyGitHubSignature timingSafeEqual
      rw [hsec]
      show (if sig.utf8ByteSize = ("sha256=" ++ hmacHex s req.rawBody).utf8ByteSize then
          Except.ok (sig == "sha256=" ++ hmacHex s req.rawBody)
        else Except.error ()) = Except.ok false
      rw [if_pos hlen]
      simp [hne]
    rw [handleWebhook_eq_false secret hmacHex req st sig h hv]
    exact ⟨rfl, rfl⟩
  · intro sig s h hsec hlen
    have hv : verifyGitHubSignature secret hmacHex req.rawBody sig = Except.error () := by
      unfold verifyGitHubSignature timingSafeEqual
      rw [hsec]
      show (if sig.utf8ByteSize = ("sha256=" ++ hmacHex s req.rawBody).utf8ByteSize then
          Except.ok (sig == "sha256=" ++ hmacHex s req.rawBody)
        else Except.error ()) = Except.error ()
      rw [if_neg hlen]
    rw [handleWebhook_eq_error secret hmacHex req st sig h hv]
    exact ⟨rfl, rfl⟩

/-- Witness for C6 at concrete inputs: the wrong-length signature request
satisfies the length-mismatch hypothesis and is answered 500 with nothing
persisted. -/
theorem C6_signature_failure_witness :
    reqShortSig.signature = some "x" ∧
    "x".utf8ByteSize ≠ ("sha256=" ++ hmacConst "secret" reqShortSig.rawBody).utf8ByteSize ∧
    (handleWebhook (some "secret") hmacConst reqShortSig gatewayState0).1.status = 500 ∧
    (handleWebhook (some "secret") hmacConst reqShortSig gatewayState0).2.2.webhookEvents =
      gatewayState0.webhookEvents :=
  ⟨rfl, by decide,
   ((C6_signature_failure (some "secret") hmacConst reqShortSig gatewayState0).2.2.2
     "x" "secret" rfl rfl (by decide)).1,
   ((C6_signature_failure (some "secret") hmacConst reqShortSig gatewayState0).2.2.2
     "x" "secret" rfl rfl (by decide)).2⟩

/-- C9 counterexample: the manual check endpoint (trigger kind manual)
awards the one-PR badge to the eligible user, and the created row carries
awardedBy system — the schema default — not the manual trigger kind the
claim requires. -/
theorem C9_counterexample :
    (checkAndAwardBadges 1 2 true [sampleStats] [sampleBadge] []).1 =
      [⟨1, 3, 2, 5, AwardedBy.system, some "manual_check"⟩] ∧
    AwardedBy.system ≠ AwardedBy.manual := by
  decide

/-- C9 amended: every Award row created by any of the three awarding
procedures carries actualValue equal to the qualifying metric value
(getActualValue of the contributor and badge) and awardedBy equal to
system — the schema default, never set from the trigger kind — while the
trigger kind is recorded only in the triggeringEvent metadata
(batch_award, the event trigger, or manual_check respectively). -/
theorem C9_actual_value_awarded_by (L : Ledger) (r : UserBadgeRow) :
    (∀ (repoId : Nat) (force : Bool) (badges : List BadgeDoc)
        (contributors : List ContributorStats),
      r ∈ (awardBadgesForRepo repoId force badges contributors L).1 → r ∈ L ∨
        ∃ c ∈ contributors, ∃ b ∈ badges,
          r.actualValue = getActualValue c b ∧ r.awardedBy = AwardedBy.system ∧
          r.user = c.userId ∧ r.badge = b.id ∧
          r.triggeringEvent = some "batch_award") ∧
    (∀ (u rep : Nat) (t : Option String) (stats : List ContributorStats)
        (badges : List BadgeDoc),
      r ∈ (awardBadgeForEvent u rep t stats badges L).1 → r ∈ L ∨
        ∃ c ∈ stats, ∃ b ∈ badges,
          r.actualValue = getActualValue c b ∧ r.awardedBy = AwardedBy.system ∧
          r.user = u ∧ r.badge = b.id ∧ r.triggeringEvent = t) ∧
    (∀ (u rep : Nat) (ok : Bool) (stats : List ContributorStats)
        (badges : List BadgeDoc),
      r ∈ (checkAndAwardBadges u rep ok stats badges L).1 → r ∈ L ∨
        ∃ c ∈ stats, ∃ b ∈ badges,
          r.actualValue = getActualValue c b ∧ r.awardedBy = AwardedBy.system ∧
          r.user = u ∧ r.badge = b.id ∧
          r.triggeringEvent = some "manual_check") := by
  refine ⟨?_, ?_, ?_⟩
  · intro repoId force badges contributors hr
    rcases awardBadgesForRepo_rows repoId force badges contributors L r hr with h | ⟨c, hc, b, hb, heq⟩
    · exact Or.inl h
    · exact Or.inr ⟨c, hc, b, hb, by rw [heq]; exact ⟨rfl, rfl, rfl, rfl, rfl⟩⟩
  · intro u rep t stats badges hr
    rcases awardBadgeForEvent_rows u rep t stats badges L r hr with h | ⟨c, hc, b, hb, heq⟩
    · exact Or.inl h
    · exact Or.inr ⟨c, hc, b, hb, by rw [heq]; exact ⟨rfl, rfl, rfl, rfl, rfl⟩⟩
  · intro u rep ok stats badges hr
    rcases checkAndAwardBadges_rows u rep ok stats badges L r hr with h | ⟨c, hc, b, hb, heq⟩
    · exact Or.inl h
    · exact Or.inr ⟨c, hc, b, hb, by rw [heq]; exact ⟨rfl, rfl, rfl, rfl, rfl⟩⟩

/-- Witness for C9 at a concrete input: the row created by a concrete
manual check is characterized by the theorem. -/
theorem C9_actual_value_awarded_by_witness :
    manualRow ∈ (checkAndAwardBadges 1 2 true [sampleStats] [sampleBadge] []).1 ∧
    (manualRow ∈ ([] : Ledger) ∨
      ∃ c ∈ [sampleStats], ∃ b ∈ [sampleBadge],
        manualRow.actualValue = getActualValue c b ∧
        manualRow.awardedBy = AwardedBy.system ∧
        manualRow.user = 1 ∧ manualRow.badge = b.id ∧
        manualRow.triggeringEvent = some "manual_check") :=
  ⟨by decide,
   (C9_actual_value_awarded_by [] manualRow).2.2 1 2 true
     [sampleStats] [sampleBadge] (by decide)⟩

/-- C5 counterexample: an importing user whose role for the new
repository is contributor (not owner) still triggers the default badge
seeding — 4 default badges are created for the fresh repository and
the import result reports badgesCreated = 4, contradicting the only-if-owner
part of the claim. -/
theorem C5_counterexample :
    snapContributor.userRole = some "contributor" ∧
    (importRepositories importDb0 1 [snapContributor]).2.badgesCreated = 4 ∧
    (importRepositories importDb0 1 [snapContributor]).1.badges.countP
      (fun b => b.repository == 10 && b.isDefault) = 4 := by
  decide

/-- C5 amended: during import, for every snapshot whose repository does
not yet exist, the default Badge Catalog is seeded and linked onto the
repository regardless of the importing user's role (the code only guards
on the absence of existing default badges, which is vacuous for a fresh
repository); in particular a repository with no existing badges yields
exactly 4 default badges created and linked and badgesCreated = 4. -/
theorem C5_default_badges_any_role (db : ImportDb) (uid : Nat) (snap : GithubSnap)
    (hWFr : ∀ r ∈ db.repositories, r.id < db.nextId)
    (hWFb : ∀ b ∈ db.badges, b.repository < db.nextId)
    (hWFm : ∀ m ∈ db.memberships, m.repository < db.nextId)
    (hg : ∀ r ∈ db.repositories, r.githubId ≠ snap.id) :
    (importRepositories db uid [snap]).2.badgesCreated = 4 ∧
    (importRepositories db uid [snap]).1.badges.countP
      (fun b => b.repository == db.nextId && b.isDefault) = 4 ∧
    ∃ r ∈ (importRepositories db uid [snap]).1.repositories,
      r.githubId = snap.id ∧
      r.badges = [db.nextId + 1, db.nextId + 2, db.nextId + 3, db.nextId + 4] := by
  rw [importRepositories_single_new db uid snap hg,
    importNewRepo_eq uid db ⟨true, [], [], [], 0⟩ snap _ hWFr hWFb hWFm]
  refine ⟨rfl, ?_, ?_⟩
  · rw [List.countP_append]
    have h0 : db.badges.countP (fun b => b.repository == db.nextId && b.isDefault) = 0 := by
      rw [List.countP_eq_zero]
      intro b hb
      simp only [Bool.and_eq_true, beq_iff_eq]
      rintro ⟨h1, _⟩
      exact Nat.ne_of_lt (hWFb b hb) h1
    rw [h0]
    simp
  · refine ⟨_, List.mem_append_right _ (List.mem_singleton.mpr rfl), rfl, rfl⟩

/-- Witness for C5 at a concrete input: the owner-role scenario of the
original claim, on an empty database. -/
theorem C5_default_badges_any_role_witness :
    snapOwner.userRole = some "owner" ∧
    (importRepositories importDb0 1 [snapOwner]).2.badgesCreated = 4 :=
  ⟨rfl,
   (C5_default_badges_any_role importDb0 1 snapOwner
      (by intro r hr; simp [importDb0] at hr)
      (by intro b hb; simp [importDb0] at hb)
      (by intro m hm; simp [importDb0] at hm)
      (by intro r hr; simp [importDb0] at hr)).1⟩

/-- C7: importing the same snapshot twice yields exactly one repository
row keyed by the upstream id and exactly one membership row for the importing
user and that repository; the first import classifies
the snapshot as imported, the second as updated (not imported); the
second import creates no badges and leaves the badge collection unchanged, so
default badge seeding happens at most once. -/
theorem C7_import_idempotence (db : ImportDb) (uid : Nat) (snap : GithubSnap)
    (hWFr : ∀ r ∈ db.repositories, r.id < db.nextId)
    (hWFb : ∀ b ∈ db.badges, b.repository < db.nextId)
    (hWFm : ∀ m ∈ db.memberships, m.repository < db.nextId)
    (hg : ∀ r ∈ db.repositories, r.githubId ≠ snap.id) :
    ((importRepositories db uid [snap]).2.imported.length = 1 ∧
      (importRepositories db uid [snap]).2.updated = []) ∧
    (importRepositories (importRepositories db uid [snap]).1 uid [snap]).1.repositories.countP
      (fun r => r.githubId == snap.id) = 1 ∧
    (importRepositories (importRepositories db uid [snap]).1 uid [snap]).1.memberships.countP
      (fun m => m.user == uid && m.repository == db.nextId) = 1 ∧
    ((importRepositories (importRepositories db uid [snap]).1 uid [snap]).2.imported = [] ∧
      (importRepositories (importRepositories db uid [snap]).1 uid [snap]).2.updated.length = 1) ∧
    (importRepositories (importRepositories db uid [snap]).1 uid [snap]).2.badgesCreated = 0 ∧
    (importRepositories (importRepositories db uid [snap]).1 uid [snap]).1.badges =
      (importRepositories db uid [snap]).1.badges := by
  set role := snap.userRole.getD "contributor" with hrole
  set R : RepositoryRow :=
    { newRepoRow db snap uid with
        badges := [db.nextId + 1, db.nextId + 2, db.nextId + 3, db.nextId + 4] } with hR
  set Bs : List BadgeDoc :=
    [⟨db.nextId + 1, db.nextId, "First Contributor", CriteriaType.prs, 1, true, true, uid⟩,
     ⟨db.nextId + 2, db.nextId, "Active Contributor", CriteriaType.prs, 5, true, true, uid⟩,
     ⟨db.nextId + 3, db.nextId, "Super Contributor", CriteriaType.prs, 20, true, true, uid⟩,
     ⟨db.nextId + 4, db.nextId, "Commit Champion", CriteriaType.commits, 50, true, true, uid⟩]
    with hBs
  set M : MembershipRow :=
    applyRoleHook ⟨uid, db.nextId, role, true, role == "owner", true, role == "owner"⟩ with hM
  have hRid : R.id = db.nextId := by rw [hR]; rfl
  have hRgid : R.githubId = snap.id := by rw [hR]; rfl
  have hMuser : M.user = uid := by rw [hM, applyRoleHook_user]
  have hMrepo : M.repository = db.nextId := by rw [hM, applyRoleHook_repository]
  have h1 : importRepositories db uid [snap] =
      (⟨db.users, db.repositories ++ [R], db.badges ++ Bs, db.memberships ++ [M],
        db.nextId + 5⟩,
       ⟨true, [⟨db.nextId, snap.name, snap.fullName.toLower, role, some 4⟩], [], [], 4⟩) := by
    rw [importRepositories_single_new db uid snap hg]
    exact importNewRepo_eq uid db ⟨true, [], [], [], 0⟩ snap role hWFr hWFb hWFm
  rw [h1]
  have hfind2 : (db.repositories ++ [R]).find? (fun r => r.githubId == snap.id) = some R := by
    rw [List.find?_append]
    have hnone : db.repositories.find? (fun r => r.githubId == snap.id) = none := by
      rw [List.find?_eq_none]
      intro r hr
      simp [hg r hr]
    rw [hnone]
    have hRgid2 : (newRepoRow db snap uid).githubId = snap.id := rfl
    simp [hRgid, hRgid2]
  have h2 : importRepositories
        ⟨db.users, db.repositories ++ [R], db.badges ++ Bs, db.memberships ++ [M],
          db.nextId + 5⟩ uid [snap] =
      importExistingRepo uid
        ⟨db.users, db.repositories ++ [R], db.badges ++ Bs, db.memberships ++ [M],
          db.nextId + 5⟩ ⟨true, [], [], [], 0⟩ snap R role := by
    unfold importRepositories importOne
    simp only [List.foldl_cons, List.foldl_nil]
    simp [hfind2, hrole]
  rw [h2]
  have hrepos : (importExistingRepo uid
        ⟨db.users, db.repositories ++ [R], db.badges ++ Bs, db.memberships ++ [M],
          db.nextId + 5⟩ ⟨true, [], [], [], 0⟩ snap R role).1.repositories =
      db.repositories ++ [syncData R snap] := by
    show (db.repositories ++ [R]).map
        (fun r => if r.id == R.id then syncData R snap else r) =
      db.repositories ++ [syncData R snap]
    rw [List.map_append]
    congr 1
    · refine map_noop _ _ ?_
      intro r hr
      have hx : (r.id == R.id) = false := by
        rw [hRid]
        simp [Nat.ne_of_lt (hWFr r hr)]
      simp [hx]
    · simp
  have hmems : (importExistingRepo uid
        ⟨db.users, db.repositories ++ [R], db.badges ++ Bs, db.memberships ++ [M],
          db.nextId + 5⟩ ⟨true, [], [], [], 0⟩ snap R role).1.memberships =
      db.memberships ++ [applyRoleHook { M with role := role, active := true }] := by
    show addUserToRepository (db.memberships ++ [M]) uid R.id role =
      db.memberships ++ [applyRoleHook { M with role := role, active := true }]
    have hany : (db.memberships ++ [M]).any
        (fun m => m.user == uid && m.repository == R.id) = true := by
      rw [List.any_append]
      have : (M.user == uid && M.repository == R.id) = true := by
        rw [hMuser, hMrepo, hRid]
        simp
      simp [this]
    unfold addUserToRepository
    rw [if_pos hany, List.map_append]
    congr 1
    · refine map_noop _ _ ?_
      intro m hm
      have hx : (m.user == uid && m.repository == R.id) = false := by
        rw [hRid]
        have := Nat.ne_of_lt (hWFm m hm)
        simp [this]
      simp [hx]
    · have hMx : (M.user == uid && M.repository == R.id) = true := by
        rw [hMuser, hMrepo, hRid]
        simp
      rw [List.map_cons, List.map_nil, if_pos hMx]
  refine ⟨⟨rfl, rfl⟩, ?_, ?_, ⟨rfl, rfl⟩, rfl, rfl⟩
  · rw [hrepos, List.countP_append]
    have h0 : db.repositories.countP (fun r => r.githubId == snap.id) = 0 := by
      rw [List.countP_eq_zero]
      intro r hr
      simp [hg r hr]
    rw [h0]
    have hs : (syncData R snap).githubId = snap.id := hRgid
    simp [hs]
  · rw [hmems, List.countP_append]
    have h0 : db.memberships.countP
        (fun m => m.user == uid && m.repository == db.nextId) = 0 := by
      rw [List.countP_eq_zero]
      intro m hm
      simp only [Bool.and_eq_true, beq_iff_eq]
      rintro ⟨_, h2x⟩
      exact Nat.ne_of_lt (hWFm m hm) h2x
    rw [h0]
    have hu : (applyRoleHook { M with role := role, active := true }).user = uid := by
      rw [applyRoleHook_user]
      exact hMuser
    have hrp : (applyRoleHook { M with role := role, active := true }).repository =
        db.nextId := by
      rw [applyRoleHook_repository]
      exact hMrepo
    simp [hu, hrp]

/-- Witness for C7 at a concrete input: importing the owner snapshot
twice into the empty database classifies the second run as updated with
no badges created. -/
theorem C7_import_idempotence_witness :
    (importRepositories (importRepositories importDb0 1 [snapOwner]).1 1
      [snapOwner]).2.updated.length = 1 ∧
    (importRepositories (importRepositories importDb0 1 [snapOwner]).1 1
      [snapOwner]).2.badgesCreated = 0 :=
  ⟨((C7_import_idempotence importDb0 1 snapOwner
      (by intro r hr; simp [importDb0] at hr)
      (by intro b hb; simp [importDb0] at hb)
      (by intro m hm; simp [importDb0] at hm)
      (by intro r hr; simp [importDb0] at hr)).2.2.2.1).2,
   ((C7_import_idempotence importDb0 1 snapOwner
      (by intro r hr; simp [importDb0] at hr)
      (by intro b hb; simp [importDb0] at hb)
      (by intro m hm; simp [importDb0] at hm)
      (by intro r hr; simp [importDb0] at hr)).2.2.2.2).1⟩

end Praise
